import Mathlib

/-!
Verification development for the vue-draggable drag-interaction core.

The definitions below are shallow embeddings of the TypeScript sources:
  - src/lib/utils/positionFns.ts  (snapToGrid, createCoreData, getBoundPosition, ...)
  - src/lib/utils/domFns.ts       (getTouch, offsetXYFromParent)
  - src/lib/type.ts               (DraggableCore: handleDragStart/handleDrag/handleDragStop,
                                   startDrag, tryStartDrag, cancelPendingDragStart,
                                   onUnmounted, calcAutoScrollSpeed)
  - src/lib/Draggable.tsx         (the Draggable wrapper onDrag policy pipeline)

JavaScript numbers are modelled as rationals; the NaN sentinel used for
"no previous coordinate" is modelled as Option.  JS Math.round is
round-half-toward-positive-infinity, Math.ceil is Int.ceil.
-/

/-- A point in parent-relative coordinates. -/
abbrev Pt := ℚ × ℚ

/-- JS Math.round: rounds half toward positive infinity. -/
def jsRound (q : ℚ) : ℤ := ⌊q + 1/2⌋

/-- From positionFns.ts, snapToGrid: round each pending delta to the nearest
multiple of the corresponding grid step (JS Math.round semantics). -/
def snapToGrid (grid : ℚ × ℚ) (pendingX pendingY : ℚ) : ℚ × ℚ :=
  ((jsRound (pendingX / grid.1) : ℚ) * grid.1,
   (jsRound (pendingY / grid.2) : ℚ) * grid.2)

/-- The data record passed to the start/move/stop callbacks
(node field omitted: it is the DOM node, irrelevant to the numeric model). -/
structure DragData where
  x : ℚ
  y : ℚ
  deltaX : ℚ
  deltaY : ℚ
  lastX : ℚ
  lastY : ℚ
deriving DecidableEq, Repr

/-- From positionFns.ts, createCoreData: when the last coordinates are unset
(NaN in the source, Option.none here) this is the first event of the gesture
and the delta is zero; otherwise the delta is measured from the last
committed position. -/
def createCoreData (last : Option Pt) (x y : ℚ) : DragData :=
  match last with
  | none => { x := x, y := y, deltaX := 0, deltaY := 0, lastX := x, lastY := y }
  | some l => { x := x, y := y, deltaX := x - l.1, deltaY := y - l.2, lastX := l.1, lastY := l.2 }

/-- Numeric bounds rect; a missing side is unconstrained (source checks
`typeof bounds.left === number` per side). -/
structure DraggableBounds where
  left : Option ℚ
  right : Option ℚ
  top : Option ℚ
  bottom : Option ℚ
deriving DecidableEq, Repr

/-- The clamping tail of getBoundPosition (positionFns.ts lines 175-181):
each side is applied only when present, left/top via max then right/bottom
via min, in source order. -/
def clampBounds (b : DraggableBounds) (x y : ℚ) : ℚ × ℚ :=
  let x1 := match b.left with | some l => max x l | none => x
  let x2 := match b.right with | some r => min x1 r | none => x1
  let y1 := match b.top with | some t => max y t | none => y
  let y2 := match b.bottom with | some u => min y1 u | none => y1
  (x2, y2)

/-- From type.ts, calcAutoScrollSpeed.  Source:
if threshold or maxSpeed is non-positive, or the distance is at least the
threshold, the speed is 0; otherwise the distance is clamped into
[0, threshold] and the speed is the ceiling of
((threshold - clamped) / threshold) * maxSpeed, floored at 0. -/
def calcAutoScrollSpeed (distanceToEdge threshold maxSpeed : ℚ) : ℚ :=
  if threshold ≤ 0 ∨ maxSpeed ≤ 0 then 0
  else if threshold ≤ distanceToEdge then 0
  else
    let clamped := max 0 (min distanceToEdge threshold)
    let frac := (threshold - clamped) / threshold
    let speed : ℤ := ⌈frac * maxSpeed⌉
    if 0 < speed then (speed : ℚ) else 0

/-- One touch point of a touch event. -/
structure TouchPoint where
  identifier : ℤ
  clientX : ℚ
  clientY : ℚ
deriving DecidableEq, Repr

/-- The touch lists of a touch event (either list may be absent), plus the
event-level client coordinates used for mouse events. -/
structure TouchEvt where
  targetTouches : Option (List TouchPoint)
  changedTouches : Option (List TouchPoint)
  clientX : ℚ
  clientY : ℚ
deriving DecidableEq, Repr

/-- From domFns.ts, getTouch: search targetTouches then changedTouches for
the touch with the given identifier (JS `(a && find a) || (b && find b)`). -/
def getTouch (e : TouchEvt) (identifier : ℤ) : Option TouchPoint :=
  match e.targetTouches.bind (fun ts => ts.find? (fun t => identifier == t.identifier)) with
  | some t => some t
  | none => e.changedTouches.bind (fun ts => ts.find? (fun t => identifier == t.identifier))

/-- From domFns.ts, offsetXYFromParent:
(client + offsetParent scroll - offsetParent rect edge) / scale, per axis. -/
def offsetXYFromParent (clientX clientY scrollLeft scrollTop rectLeft rectTop scale : ℚ) : Pt :=
  ((clientX + scrollLeft - rectLeft) / scale, (clientY + scrollTop - rectTop) / scale)

/-- The offset-parent measurements consumed by getControlPosition. -/
structure OffsetParentInfo where
  scrollLeft : ℚ
  scrollTop : ℚ
  rectLeft : ℚ
  rectTop : ℚ
deriving DecidableEq, Repr

/-- From positionFns.ts, getControlPosition: when a touch identifier is
tracked, the event must contain a touch with that identifier, otherwise the
result is null ("not the right touch"); a missing DOM node also yields null;
otherwise the touch (or event) client position is converted with
offsetXYFromParent. -/
def getControlPosition (e : TouchEvt) (touchIdentifier : Option ℤ)
    (nodePresent : Bool) (op : OffsetParentInfo) (scale : ℚ) : Option Pt :=
  let touchObj := touchIdentifier.bind (fun tid => getTouch e tid)
  if touchIdentifier.isSome && touchObj.isNone then none
  else if !nodePresent then none
  else
    let c : ℚ × ℚ := match touchObj with
      | some t => (t.clientX, t.clientY)
      | none => (e.clientX, e.clientY)
    some (offsetXYFromParent c.1 c.2 op.scrollLeft op.scrollTop op.rectLeft op.rectTop scale)

/-- The drag axis prop of the Draggable wrapper. -/
inductive Axis
  | both
  | x
  | y
  | nothing
deriving DecidableEq, Repr

/-- From positionFns.ts, canDragX: axis is both or x. -/
def canDragX (axis : Axis) : Bool := axis == Axis.both || axis == Axis.x

/-- From positionFns.ts, canDragY: axis is both or y. -/
def canDragY (axis : Axis) : Bool := axis == Axis.both || axis == Axis.y

/-- The committed direction-lock axis. -/
inductive LockAxis
  | x
  | y
deriving DecidableEq, Repr

/-- The props of the Draggable wrapper consumed by onDrag.  Bounds are
modelled here in their numeric-rect form (Option none = bounds disabled);
the selector/parent resolution of getBoundPosition is modelled separately
below and shown to reduce to clampBounds once resolved. -/
structure DragProps where
  axis : Axis
  directionLock : Bool
  directionLockThreshold : ℚ
  scale : ℚ
  bounds : Option DraggableBounds
deriving DecidableEq, Repr

/-- The internal per-gesture state of the Draggable wrapper
(internalX/Y, internalSlackX/Y and the direction-lock closure variables;
the NaN sentinels of directionLockFixedX/Y are Option none). -/
structure DragState where
  x : ℚ
  y : ℚ
  slackX : ℚ
  slackY : ℚ
  directionLockAxis : Option LockAxis
  directionLockFixedX : Option ℚ
  directionLockFixedY : Option ℚ
  directionLockTotalX : ℚ
  directionLockTotalY : ℚ
deriving DecidableEq, Repr

/-- From Draggable.tsx, getDirectionLockThreshold: non-positive thresholds
collapse to 0; a zero (falsy) scale leaves the threshold unscaled; otherwise
the threshold is divided by scale. -/
def getDirectionLockThreshold (p : DragProps) : ℚ :=
  if p.directionLockThreshold ≤ 0 then 0
  else if p.scale = 0 then p.directionLockThreshold
  else p.directionLockThreshold / p.scale

/-- From Draggable.tsx, onDrag (lines 293-402), as a pure step: given the
core delta of one accepted move event, produce the DragData handed to the
caller's drag callback and the updated internal state.  The comparison
`Math.hypot(tx, ty) >= threshold` is encoded as `tx^2 + ty^2 >= threshold^2`,
equivalent since both sides of the source comparison are non-negative.
The bounds branch uses clampBounds, the numeric-rect specialization of
getBoundPosition (justified by getBoundPosition_rect below). -/
def onDragStep (p : DragProps) (st : DragState) (coreDeltaX coreDeltaY : ℚ) :
    DragData × DragState :=
  let scale := p.scale
  let rawDeltaX := coreDeltaX / scale
  let rawDeltaY := coreDeltaY / scale
  let newX := st.x + rawDeltaX
  let newY := st.y + rawDeltaY
  let uiDeltaX := rawDeltaX
  let uiDeltaY := rawDeltaY
  let allowAxisX := canDragX p.axis
  let allowAxisY := canDragY p.axis
  -- direction-lock accumulation and commit
  let lock : DragState :=
    if p.directionLock && allowAxisX && allowAxisY then
      match st.directionLockAxis with
      | none =>
        let totalX := st.directionLockTotalX + rawDeltaX
        let totalY := st.directionLockTotalY + rawDeltaY
        let threshold := getDirectionLockThreshold p
        if threshold = 0 ∨ threshold * threshold ≤ totalX * totalX + totalY * totalY then
          { st with
            directionLockAxis := some (if |totalY| ≤ |totalX| then LockAxis.x else LockAxis.y),
            directionLockFixedX := some st.x,
            directionLockFixedY := some st.y,
            directionLockTotalX := totalX,
            directionLockTotalY := totalY }
        else
          { st with directionLockTotalX := totalX, directionLockTotalY := totalY }
      | some _ => st
    else st
  -- pin the non-locked axis to its value at lock time
  let pinned : ℚ × ℚ × ℚ × ℚ :=
    match lock.directionLockAxis, lock.directionLockFixedX, lock.directionLockFixedY with
    | some LockAxis.x, _, some fy => (newX, fy, uiDeltaX, fy - st.y)
    | some LockAxis.y, some fx, _ => (fx, newY, fx - st.x, uiDeltaY)
    | _, _, _ => (newX, newY, uiDeltaX, uiDeltaY)
  let newX := pinned.1
  let newY := pinned.2.1
  let uiDeltaX := pinned.2.2.1
  let uiDeltaY := pinned.2.2.2
  let effAxisX := allowAxisX && !(lock.directionLockAxis == some LockAxis.y)
  let effAxisY := allowAxisY && !(lock.directionLockAxis == some LockAxis.x)
  let newX := if !effAxisX then st.x else newX
  let uiDeltaX := if !effAxisX then 0 else uiDeltaX
  let newY := if !effAxisY then st.y else newY
  let uiDeltaY := if !effAxisY then 0 else uiDeltaY
  -- bounds clamp with slack compensation
  let bounded : ℚ × ℚ × ℚ × ℚ × ℚ × ℚ :=
    match p.bounds with
    | some b =>
      let x0 := newX
      let y0 := newY
      let slackX := if effAxisX then st.slackX else 0
      let slackY := if effAxisY then st.slackY else 0
      let c := clampBounds b (newX + slackX) (newY + slackY)
      (c.1, c.2, c.1 - st.x, c.2 - st.y, slackX + (x0 - c.1), slackY + (y0 - c.2))
    | none => (newX, newY, uiDeltaX, uiDeltaY, 0, 0)
  let newX := bounded.1
  let newY := bounded.2.1
  let uiDeltaX := bounded.2.2.1
  let uiDeltaY := bounded.2.2.2.1
  let newSlackX := if !effAxisX then 0 else bounded.2.2.2.2.1
  let newSlackY := if !effAxisY then 0 else bounded.2.2.2.2.2
  let ui : DragData :=
    { x := newX, y := newY, deltaX := uiDeltaX, deltaY := uiDeltaY, lastX := st.x, lastY := st.y }
  (ui, { lock with x := newX, y := newY, slackX := newSlackX, slackY := newSlackY })

/-- One move of the Draggable wrapper including the drag-callback veto: the
direction-lock closure variables are mutated before the callback runs, so a
vetoed move still commits them, but the position and slack commit is
skipped (Draggable.tsx lines 385-392). -/
def onDragStepVeto (p : DragProps) (st : DragState) (coreDeltaX coreDeltaY : ℚ)
    (accepted : Bool) : DragData × DragState :=
  let r := onDragStep p st coreDeltaX coreDeltaY
  if accepted then r
  else
    (r.1, { st with
      directionLockAxis := r.2.directionLockAxis,
      directionLockFixedX := r.2.directionLockFixedX,
      directionLockFixedY := r.2.directionLockFixedY,
      directionLockTotalX := r.2.directionLockTotalX,
      directionLockTotalY := r.2.directionLockTotalY })

/-- Fold onDragStepVeto over a list of (coreDelta, accepted) move events,
collecting the DragData records reported to the caller. -/
def runDrags (p : DragProps) (st : DragState) :
    List (ℚ × ℚ × Bool) → List DragData × DragState
  | [] => ([], st)
  | m :: ms =>
    let r := onDragStepVeto p st m.1 m.2.1 m.2.2
    let rest := runDrags p r.2 ms
    (r.1 :: rest.1, rest.2)

/-- Parsed computed-style values consumed by the bounds computation; a field
is none when the CSS property is missing or does not parse as an integer
(parseStyleToInt then yields 0). -/
structure DomStyle where
  paddingLeft : Option ℤ
  paddingRight : Option ℤ
  paddingTop : Option ℤ
  paddingBottom : Option ℤ
  marginLeft : Option ℤ
  marginRight : Option ℤ
  marginTop : Option ℤ
  marginBottom : Option ℤ
  borderLeftWidth : Option ℤ
  borderRightWidth : Option ℤ
  borderTopWidth : Option ℤ
  borderBottomWidth : Option ℤ
deriving DecidableEq, Repr

/-- From positionFns.ts, parseStyleToInt: a missing or unparsable style
value is 0. -/
def parseStyleToInt (v : Option ℤ) : ℤ := v.getD 0

/-- A DOM node as seen by getBoundPosition.  Object identity in the source
(`cache.node === node`) is modelled by the id field; isHTMLElement models
`instanceof ownerWindow.HTMLElement`; inDocument models
`ownerDocument.contains`. -/
structure DomElem where
  id : ℕ
  isHTMLElement : Bool
  inDocument : Bool
  clientWidth : ℚ
  clientHeight : ℚ
  offsetLeft : ℚ
  offsetTop : ℚ
  style : DomStyle
deriving DecidableEq, Repr

/-- The bounds prop of getBoundPosition: false/absent, a numeric rect, or a
selector string (which includes the special value "parent"). -/
inductive BoundsSpec
  | off
  | rect (b : DraggableBounds)
  | selector (s : String)
deriving DecidableEq, Repr

/-- JS falsiness of the bounds prop (`if (!draggable.props.bounds)`):
false/undefined and the empty string are falsy; any object is truthy. -/
def boundsFalsy : BoundsSpec → Bool
  | BoundsSpec.off => true
  | BoundsSpec.selector s => s.isEmpty
  | BoundsSpec.rect _ => false

/-- The per-draggable __boundsCache record of positionFns.ts. -/
structure BoundsCacheRec where
  key : String
  node : Option DomElem
  boundEl : Option DomElem
  boundClientWidth : ℚ
  boundClientHeight : ℚ
  nodeClientWidth : ℚ
  nodeClientHeight : ℚ
  bounds : Option DraggableBounds
deriving DecidableEq, Repr

/-- The cache-validity test of getBoundPosition (positionFns.ts lines
112-122): the cached numeric bounds are reused only when the cache exists,
the key and node identity match, a bound element and bounds are cached, and
all four measured client dimensions are unchanged. -/
def cacheLookup (cacheKey : String) (node : DomElem) (cache : Option BoundsCacheRec) :
    Option DraggableBounds :=
  match cache with
  | none => none
  | some c =>
    match c.boundEl, c.bounds with
    | some boundEl, some b =>
      if c.key = cacheKey ∧ c.node = some node ∧
         c.boundClientWidth = boundEl.clientWidth ∧
         c.boundClientHeight = boundEl.clientHeight ∧
         c.nodeClientWidth = node.clientWidth ∧
         c.nodeClientHeight = node.clientHeight
      then some b else none
    | _, _ => none

/-- From positionFns.ts, getCachedBoundElement: a cached null is returned
without re-querying; a cached element still contained in the document is
returned; otherwise the document is queried and the result cached.
Returns the resolved element and the updated cache entry. -/
def getCachedBoundElement (selCache : Option (Option DomElem))
    (query : Option DomElem) : Option DomElem × Option (Option DomElem) :=
  match selCache with
  | some none => (none, selCache)
  | some (some el) =>
    if el.inDocument then (some el, selCache)
    else (query, some query)
  | none => (query, some query)

/-- The numeric bounds computed from node and bound-node styles
(positionFns.ts lines 131-159). -/
def computeSelectorBounds (node boundNode : DomElem) : DraggableBounds :=
  let boundPaddingLeft : ℚ := parseStyleToInt boundNode.style.paddingLeft
  let boundPaddingRight : ℚ := parseStyleToInt boundNode.style.paddingRight
  let boundPaddingTop : ℚ := parseStyleToInt boundNode.style.paddingTop
  let boundPaddingBottom : ℚ := parseStyleToInt boundNode.style.paddingBottom
  let nodeMarginLeft : ℚ := parseStyleToInt node.style.marginLeft
  let nodeMarginRight : ℚ := parseStyleToInt node.style.marginRight
  let nodeMarginTop : ℚ := parseStyleToInt node.style.marginTop
  let nodeMarginBottom : ℚ := parseStyleToInt node.style.marginBottom
  let nodeBorderLeft : ℚ := parseStyleToInt node.style.borderLeftWidth
  let nodeBorderRight : ℚ := parseStyleToInt node.style.borderRightWidth
  let nodeBorderTop : ℚ := parseStyleToInt node.style.borderTopWidth
  let nodeBorderBottom : ℚ := parseStyleToInt node.style.borderBottomWidth
  let boundInnerWidth := boundNode.clientWidth - boundPaddingLeft - boundPaddingRight
  let boundInnerHeight := boundNode.clientHeight - boundPaddingTop - boundPaddingBottom
  let nodeOuterWidth := node.clientWidth + nodeBorderLeft + nodeBorderRight
  let nodeOuterHeight := node.clientHeight + nodeBorderTop + nodeBorderBottom
  { left := some (-node.offsetLeft + boundPaddingLeft + nodeMarginLeft),
    top := some (-node.offsetTop + boundPaddingTop + nodeMarginTop),
    right := some (boundInnerWidth - nodeOuterWidth - node.offsetLeft + boundPaddingRight - nodeMarginRight),
    bottom := some (boundInnerHeight - nodeOuterHeight - node.offsetTop + boundPaddingBottom - nodeMarginBottom) }

/-- The DOM environment of one getBoundPosition call: the resolved
draggable node, whether its owner window is available, the node's
parentNode, and what ownerDocument.querySelector(selector) would return. -/
structure BoundsEnv where
  node : Option DomElem
  ownerWindowPresent : Bool
  parentNode : Option DomElem
  queryResult : Option DomElem
deriving DecidableEq, Repr

/-- The bound-node resolution of getBoundPosition on a cache miss
(positionFns.ts lines 125-127): the special selector "parent" uses the
node's parentNode, any other selector goes through the per-node selector
cache.  Returns the resolved node and the updated selector-cache entry. -/
def resolveBoundNode (s : String) (env : BoundsEnv)
    (selCache : Option (Option DomElem)) : Option DomElem × Option (Option DomElem) :=
  if s = "parent" then (env.parentNode, selCache)
  else getCachedBoundElement selCache env.queryResult

/-- From positionFns.ts, getBoundPosition (lines 95-182).  Early returns
yield the position unchanged: falsy bounds prop, unresolvable node, missing
owner window.  A selector bounds prop uses the validity-checked
__boundsCache, else resolves the bound node ("parent" via parentNode,
otherwise through the per-node selector cache) and throws — modelled as
Except.error — when the result is not an HTMLElement.  The result carries
the clamped position plus the updated __boundsCache and selector-cache
entry. -/
def getBoundPosition (bounds : BoundsSpec) (env : BoundsEnv)
    (cache : Option BoundsCacheRec) (selCache : Option (Option DomElem))
    (x y : ℚ) :
    Except String ((ℚ × ℚ) × Option BoundsCacheRec × Option (Option DomElem)) :=
  if boundsFalsy bounds then Except.ok ((x, y), cache, selCache)
  else
    match env.node with
    | none => Except.ok ((x, y), cache, selCache)
    | some node =>
      if !env.ownerWindowPresent then Except.ok ((x, y), cache, selCache)
      else
        match bounds with
        | BoundsSpec.off => Except.ok ((x, y), cache, selCache)
        | BoundsSpec.rect b => Except.ok (clampBounds b x y, cache, selCache)
        | BoundsSpec.selector s =>
          match cacheLookup s node cache with
          | some b => Except.ok (clampBounds b x y, cache, selCache)
          | none =>
            let resolved := resolveBoundNode s env selCache
            match resolved.1 with
            | none =>
              Except.error ("Bounds selector " ++ s ++ " could not find an element.")
            | some boundNode =>
              if !boundNode.isHTMLElement then
                Except.error ("Bounds selector " ++ s ++ " could not find an element.")
              else
                let b := computeSelectorBounds node boundNode
                let cache1 : Option BoundsCacheRec :=
                  match cache with
                  | some _ =>
                    some { key := s, node := some node, boundEl := some boundNode,
                           boundClientWidth := boundNode.clientWidth,
                           boundClientHeight := boundNode.clientHeight,
                           nodeClientWidth := node.clientWidth,
                           nodeClientHeight := node.clientHeight,
                           bounds := some b }
                  | none => cache
                Except.ok (clampBounds b x y, cache1, resolved.2)

/-- Pending-start qualification mode of DraggableCore. -/
inductive PMode
  | threshold
  | delay
deriving DecidableEq, Repr

/-- DraggableCore props consumed by the drag state machine
(non-rAF path: useRafDrag = false; auto-scroll ignored by the numeric
model). -/
structure CoreProps where
  allowAnyClick : Bool
  disabled : Bool
  enableUserSelectHack : Bool
  grid : Option (ℚ × ℚ)
  dragStartThreshold : ℚ
  dragStartDelay : ℚ
  dragStartDelayTolerance : ℚ
  scale : ℚ
deriving DecidableEq, Repr

/-- The default DraggableCore props (type.ts draggableCoreDefaultProps). -/
def CoreProps.default : CoreProps :=
  { allowAnyClick := false, disabled := false, enableUserSelectHack := true,
    grid := none, dragStartThreshold := 0, dragStartDelay := 0,
    dragStartDelayTolerance := 5, scale := 1 }

/-- The gesture state of one DraggableCore instance: the reactive IState
fields plus the setup-closure variables driving gesture qualification and
resource ownership.  NaN sentinels (lastX/lastY, dragStartX/Y, pendingX/Y)
are Option none.  listenersAttached models whether the document-level
move/stop(/cancel) listeners are attached; userSelectSuppressed models the
presence of the user-select suppression style; pointerCaptured models an
outstanding setPointerCapture; delayTimerArmed models a pending
drag-start-delay timeout. -/
structure CoreState where
  dragging : Bool
  last : Option Pt
  touchIdentifier : Option ℤ
  pointerIdentifier : Option ℤ
  mounted : Bool
  listenersAttached : Bool
  userSelectSuppressed : Bool
  pointerCaptured : Bool
  pendingDragStart : Bool
  pendingDragStartMode : Option PMode
  dragStart : Option Pt
  pendingPos : Option Pt
  dragStartDelayPassed : Bool
  delayTimerArmed : Bool
  hasDragged : Bool
deriving DecidableEq, Repr

/-- The state at mount (type.ts state initializer plus onMounted). -/
def CoreState.init : CoreState :=
  { dragging := false, last := none, touchIdentifier := none,
    pointerIdentifier := none, mounted := true, listenersAttached := false,
    userSelectSuppressed := false, pointerCaptured := false,
    pendingDragStart := false, pendingDragStartMode := none,
    dragStart := none, pendingPos := none, dragStartDelayPassed := false,
    delayTimerArmed := false, hasDragged := false }

/-- Callbacks observed by the caller.  The accepted flag records whether the
caller's return value was explicit false (a veto), which the caller itself
observes. -/
inductive CB
  | start (accepted : Bool) (data : DragData)
  | move (data : DragData)
  | stop (accepted : Bool) (data : DragData)
deriving DecidableEq, Repr

/-- From type.ts, getDragStartDelay: non-positive delays collapse to 0. -/
def getDragStartDelay (p : CoreProps) : ℚ :=
  if 0 < p.dragStartDelay then p.dragStartDelay else 0

/-- From type.ts, getDragStartThreshold: non-positive thresholds collapse to
0; a zero (falsy) scale leaves the threshold unscaled; otherwise it is
divided by scale. -/
def getDragStartThreshold (p : CoreProps) : ℚ :=
  if p.dragStartThreshold ≤ 0 then 0
  else if p.scale = 0 then p.dragStartThreshold
  else p.dragStartThreshold / p.scale

/-- From type.ts, getDragStartDelayTolerance: same shape as the threshold
getter. -/
def getDragStartDelayTolerance (p : CoreProps) : ℚ :=
  if p.dragStartDelayTolerance ≤ 0 then 0
  else if p.scale = 0 then p.dragStartDelayTolerance
  else p.dragStartDelayTolerance / p.scale

/-- From type.ts, meetsDragStartThreshold: trivially true when the threshold
is zero or no anchor is recorded; otherwise the squared distance from the
anchor must reach the squared threshold (the source compares
dx*dx + dy*dy against threshold*threshold). -/
def meetsDragStartThreshold (p : CoreProps) (st : CoreState) (x y : ℚ) : Bool :=
  let threshold := getDragStartThreshold p
  if threshold ≤ 0 then true
  else
    match st.dragStart with
    | none => true
    | some a =>
      let dx := x - a.1
      let dy := y - a.2
      threshold * threshold ≤ dx * dx + dy * dy

/-- From type.ts, exceedsDragStartDelayTolerance: false when the tolerance
is zero or no anchor is recorded; otherwise the squared distance from the
anchor must strictly exceed the squared tolerance. -/
def exceedsDragStartDelayTolerance (p : CoreProps) (st : CoreState) (x y : ℚ) : Bool :=
  let tolerance := getDragStartDelayTolerance p
  if tolerance ≤ 0 then false
  else
    match st.dragStart with
    | none => false
    | some a =>
      let dx := x - a.1
      let dy := y - a.2
      tolerance * tolerance < dx * dx + dy * dy

/-- From type.ts, cancelPendingDragStart (lines 1509-1544): clears the delay
timer, resets all gesture state, releases pointer capture, and removes the
document move/stop listeners. -/
def cancelPendingDragStart (st : CoreState) : CoreState :=
  { st with
    dragging := false, last := none, touchIdentifier := none,
    pointerCaptured := false, pointerIdentifier := none,
    pendingDragStart := false, pendingDragStartMode := none,
    dragStart := none, pendingPos := none, dragStartDelayPassed := false,
    delayTimerArmed := false, hasDragged := false, listenersAttached := false }

/-- From type.ts, startDrag (lines 1546-1580): builds the core data against
unset last coordinates, fires the start callback, and on veto (or unmount)
runs cancelPendingDragStart; otherwise installs the user-select suppression,
optionally resets the last coordinates, clears the pending state, and sets
the dragging flag.  Returns (state, emitted callbacks, started flag). -/
def startDrag (p : CoreProps) (st : CoreState) (pos : Pt)
    (startRet : Bool) (resetLastCoords : Bool) : CoreState × List CB × Bool :=
  let coreEvent := createCoreData none pos.1 pos.2
  if startRet = false ∨ st.mounted = false then
    (cancelPendingDragStart st, [CB.start false coreEvent], false)
  else
    let st1 := if p.enableUserSelectHack then { st with userSelectSuppressed := true } else st
    let st2 := if resetLastCoords then { st1 with last := some pos } else st1
    ({ st2 with pendingDragStart := false, pendingDragStartMode := none,
                dragStartDelayPassed := false, dragging := true },
     [CB.start true coreEvent], true)

/-- From type.ts, tryStartDrag (lines 1582-1590): no pending start means
return the current dragging flag; delay mode starts (resetting last
coordinates) only once the delay has elapsed; threshold mode starts only
once the threshold distance is met. -/
def tryStartDrag (p : CoreProps) (st : CoreState) (pos : Pt)
    (startRet : Bool) : CoreState × List CB × Bool :=
  if !st.pendingDragStart then (st, [], st.dragging)
  else if st.pendingDragStartMode == some PMode.delay then
    if !st.dragStartDelayPassed then (st, [], false)
    else startDrag p st pos startRet true
  else if !meetsDragStartThreshold p st pos.1 pos.2 then (st, [], false)
  else startDrag p st pos startRet false

/-- The cleanup tail of handleDragStop (type.ts lines 1800-1830): resets all
gesture state, releases pointer capture, clears the delay timer, and
removes the document move/stop listeners. -/
def stopCleanup (st : CoreState) : CoreState :=
  { st with
    dragging := false, last := none, touchIdentifier := none,
    pointerCaptured := false, pointerIdentifier := none,
    pendingDragStart := false, pendingDragStartMode := none,
    dragStart := none, pendingPos := none, dragStartDelayPassed := false,
    delayTimerArmed := false, hasDragged := false, listenersAttached := false }

/-- From type.ts, handleDragStop (lines 1754-1831), non-rAF path.  posO is
the getControlPosition result of the event (none = untracked touch or
unresolvable node).  If neither dragging nor pending, or the event is a
pointer event whose pointerId differs from the tracked one, nothing
happens.  While dragging: grid-snap the stop position, fire the stop
callback, and return early — skipping every cleanup step — when the
callback returns false (or the component is unmounted); otherwise remove
the user-select suppression and run the cleanup.  When only a pending
start exists, the cleanup runs without firing the stop callback. -/
def handleDragStopBody (p : CoreProps) (st : CoreState) (posO : Option Pt)
    (stopRet : Bool) : CoreState × List CB :=
  if st.dragging then
    match posO with
    | none => (st, [])
    | some pos =>
      let xy : Pt :=
        match p.grid, st.last with
        | some g, some l =>
          let deltaX := pos.1 - l.1
          let deltaY := pos.2 - l.2
          let s := snapToGrid g deltaX deltaY
          (l.1 + s.1, l.2 + s.2)
        | _, _ => pos
      let coreEvent := createCoreData st.last xy.1 xy.2
      if stopRet = false ∨ st.mounted = false then (st, [CB.stop false coreEvent])
      else
        let st1 := if p.enableUserSelectHack then { st with userSelectSuppressed := false } else st
        (stopCleanup st1, [CB.stop true coreEvent])
  else (stopCleanup st, [])

/-- The identifier filter and idle guard of handleDragStop, dispatching to
handleDragStopBody (the body was split out of the source function only so
that it can be named in lemmas). -/
def handleDragStopStep (p : CoreProps) (st : CoreState) (pid : Option ℤ)
    (posO : Option Pt) (stopRet : Bool) : CoreState × List CB :=
  if !st.dragging ∧ !st.pendingDragStart then (st, [])
  else
    match st.pointerIdentifier, pid with
    | some bound, some q =>
      if q ≠ bound then (st, [])
      else handleDragStopBody p st posO stopRet
    | _, _ => handleDragStopBody p st posO stopRet

/-- The body of handleDrag (type.ts lines 1704-1752, non-rAF path) after
the pointer-identifier filter (split out of the source function only so it
can be named in lemmas).  posO is the getControlPosition result of the
event (none = untracked touch or unresolvable node); startRet/dragRet/
stopRet are the values the caller's callbacks would return if invoked while
processing this event.  When not yet dragging, delay-mode tolerance is
enforced and tryStartDrag may qualify the gesture (firing start).  Then:
unchanged raw positions are skipped, grid snapping may discard the move
(NaN falsiness makes the source skip whenever the last coordinates are
unset, the `some g, none` branch), the move callback fires, and a veto (or
unmount) routes into handleDragStop with the same event.  Split in two
(commit phase here, qualification phase below) only so each can be named in
lemmas. -/
def handleDragCommit (p : CoreProps) (st1 : CoreState) (cbs : List CB)
    (pid : Option ℤ) (pos : Pt) (dragRet stopRet : Bool) : CoreState × List CB :=
  -- skip useless drag (no movement)
  if st1.last == some pos then (st1, cbs)
  else
    let snapped : Option Pt :=
      match p.grid, st1.last with
      | some g, some l =>
        let deltaX := pos.1 - l.1
        let deltaY := pos.2 - l.2
        let s := snapToGrid g deltaX deltaY
        if s.1 = 0 ∧ s.2 = 0 then none else some (l.1 + s.1, l.2 + s.2)
      | some _, none => none
      | none, _ => some pos
    match snapped with
    | none => (st1, cbs)
    | some xy =>
      let coreEvent := createCoreData st1.last xy.1 xy.2
      if dragRet = false ∨ st1.mounted = false then
        let stopped := handleDragStopStep p st1 pid (some pos) stopRet
        (stopped.1, cbs ++ [CB.move coreEvent] ++ stopped.2)
      else
        ({ st1 with last := some xy, hasDragged := true },
         cbs ++ [CB.move coreEvent])

/-- The qualification phase of handleDrag followed by the commit phase
above. -/
def handleDragBody (p : CoreProps) (st : CoreState) (pid : Option ℤ)
    (posO : Option Pt) (startRet dragRet stopRet : Bool) : CoreState × List CB :=
  match posO with
  | none => (st, [])
  | some pos =>
    -- not yet dragging: delay tolerance handling, then tryStartDrag
    let qualified : CoreState × List CB × Bool :=
      if !st.dragging then
        if st.pendingDragStartMode == some PMode.delay then
          let st1 := { st with pendingPos := some pos }
          if !st1.dragStartDelayPassed then
            if exceedsDragStartDelayTolerance p st1 pos.1 pos.2 then
              (cancelPendingDragStart st1, [], false)
            else (st1, [], false)
          else tryStartDrag p st1 pos startRet
        else tryStartDrag p st pos startRet
      else (st, [], true)
    if !qualified.2.2 then (qualified.1, qualified.2.1)
    else handleDragCommit p qualified.1 qualified.2.1 pid pos dragRet stopRet

/-- From type.ts, handleDrag (lines 1669-1673): when a pointer identifier is
tracked, non-pointer events and pointer events with a different pointerId
are dropped before anything else; then the body runs. -/
def handleDragStep (p : CoreProps) (st : CoreState) (pid : Option ℤ)
    (posO : Option Pt) (startRet dragRet stopRet : Bool) : CoreState × List CB :=
  match st.pointerIdentifier, pid with
  | some _, none => (st, [])
  | some bound, some q =>
    if q ≠ bound then (st, [])
    else handleDragBody p st pid posO startRet dragRet stopRet
  | none, _ => handleDragBody p st pid posO startRet dragRet stopRet

/-- From type.ts, handleDragStart (lines 1833-1937).  button is the mouse
button (pointer/mouse events; synthetic -1 marks an event without a button
field); filtered abstracts the target/handle/cancel/interactive-element
selector checks; pid is the pointerId for pointer events; tid is the
getTouchIdentifier result; posO the getControlPosition result.  Order per
source: button gate, disabled/selector gate, identifier binding, position
(null aborts), anchor/pending bookkeeping, then either arm the delay timer,
or qualify via threshold, or start at once (a vetoed immediate start
returns before the document listeners are attached); finally the document
move/stop listeners are attached and pointer capture is taken for pointer
events. -/
def handleDragStartStep (p : CoreProps) (st : CoreState) (isTouch : Bool)
    (button : ℤ) (filtered : Bool) (pid : Option ℤ) (tid : Option ℤ)
    (posO : Option Pt) (startRet : Bool) : CoreState × List CB :=
  if !p.allowAnyClick && button ≠ 0 && button ≠ -1 then (st, [])
  else if p.disabled || filtered then (st, [])
  else
    let st1 := { st with
      pointerIdentifier := pid,
      touchIdentifier := if pid.isNone then tid else none }
    match posO with
    | none => (st1, [])
    | some pos =>
      let st2 := { st1 with
        last := some pos, delayTimerArmed := false,
        dragStartDelayPassed := false, hasDragged := false,
        dragStart := some pos, pendingPos := some pos }
      let shouldDelay := isTouch && decide (0 < getDragStartDelay p)
      let pending := shouldDelay || decide (0 < getDragStartThreshold p)
      let mode : Option PMode :=
        if shouldDelay then some PMode.delay
        else if pending then some PMode.threshold else none
      let st3 := { st2 with pendingDragStart := pending, pendingDragStartMode := mode }
      if mode == some PMode.delay then
        let st4 := { st3 with delayTimerArmed := true }
        ({ st4 with listenersAttached := true, pointerCaptured := pid.isSome }, [])
      else if !pending then
        let started := startDrag p st3 pos startRet false
        if !started.2.2 then (started.1, started.2.1)
        else
          ({ started.1 with listenersAttached := true, pointerCaptured := pid.isSome },
           started.2.1)
      else
        ({ st3 with listenersAttached := true, pointerCaptured := pid.isSome }, [])

/-- From type.ts, the dragStartDelay timeout callback (lines 1909-1917):
marks the delay as elapsed and, if the pending delay gesture is still live
and the component mounted, starts the drag at the latest pending position
(falling back to the anchor), resetting the last coordinates. -/
def delayTimerFireStep (p : CoreProps) (st : CoreState) (startRet : Bool) :
    CoreState × List CB :=
  let st1 := { st with delayTimerArmed := false, dragStartDelayPassed := true }
  if !st1.pendingDragStart || !(st1.pendingDragStartMode == some PMode.delay) ||
     st1.dragging || st1.mounted = false then (st1, [])
  else
    let next := match st1.pendingPos with
      | some q => q
      | none => st1.dragStart.getD (0, 0)
    let started := startDrag p st1 next startRet true
    (started.1, started.2.1)

/-- From type.ts, onUnmounted (lines 1992-2020): clears the mounted flag,
cancels the delay timer and scheduled frames, releases pointer capture,
clears both identifiers, removes every document/element listener, and
removes the user-select suppression when the hack is enabled.  It fires no
callback and leaves the dragging flag and last coordinates untouched. -/
def unmountStep (p : CoreProps) (st : CoreState) : CoreState × List CB :=
  ({ st with
     mounted := false, delayTimerArmed := false, pointerCaptured := false,
     pointerIdentifier := none, touchIdentifier := none,
     listenersAttached := false,
     userSelectSuppressed := if p.enableUserSelectHack then false else st.userSelectSuppressed },
   [])

/-- Input events of one DraggableCore instance.  down carries the dispatch
of the element-level pointerdown/mousedown/touchstart listener; move and up
carry the document-level listeners; timerFire is the drag-start-delay
timeout; unmount is component teardown.  Callback return values are
supplied with the event that would trigger them. -/
inductive Ev
  | down (isTouch : Bool) (button : ℤ) (filtered : Bool)
         (pid : Option ℤ) (tid : Option ℤ) (pos : Option Pt) (startRet : Bool)
  | move (pid : Option ℤ) (pos : Option Pt) (startRet dragRet stopRet : Bool)
  | up (pid : Option ℤ) (pos : Option Pt) (stopRet : Bool)
  | timerFire (startRet : Bool)
  | unmount
deriving DecidableEq, Repr

/-- One step of the DraggableCore machine.  The delivery guards model the
event system: element start listeners exist only while mounted, document
move/up listeners only while attached, the delay timeout only while armed;
unmount is idempotent. -/
def coreStep (p : CoreProps) (st : CoreState) : Ev → CoreState × List CB
  | Ev.down isTouch button filtered pid tid pos startRet =>
    if !st.mounted then (st, [])
    else handleDragStartStep p st isTouch button filtered pid tid pos startRet
  | Ev.move pid pos startRet dragRet stopRet =>
    if !st.listenersAttached then (st, [])
    else handleDragStep p st pid pos startRet dragRet stopRet
  | Ev.up pid pos stopRet =>
    if !st.listenersAttached then (st, [])
    else handleDragStopStep p st pid pos stopRet
  | Ev.timerFire startRet =>
    if !st.delayTimerArmed then (st, [])
    else delayTimerFireStep p st startRet
  | Ev.unmount =>
    if !st.mounted then (st, [])
    else unmountStep p st

/-- Run the machine over a list of events, collecting all emitted
callbacks in order. -/
def coreRun (p : CoreProps) (st : CoreState) : List Ev → CoreState × List CB
  | [] => (st, [])
  | e :: es =>
    let r := coreStep p st e
    let rest := coreRun p r.1 es
    (rest.1, r.2 ++ rest.2)

/-- One step of the callback-order automaton of property P1: when no gesture
is open, only a start callback is admissible (opening the gesture when the
caller accepted it); while a gesture is open, move callbacks keep it open
and an accepted stop closes it.  The Bool state is "a gesture is open". -/
def cbStep : Bool → CB → Option Bool
  | false, CB.start a _ => some a
  | true, CB.move _ => some true
  | true, CB.stop true _ => some false
  | _, _ => none

/-- Run the callback-order automaton over a callback trace; none means the
order start, move*, stop was violated. -/
def cbRun (s : Option Bool) : List CB → Option Bool
  | [] => s
  | c :: cs =>
    match s with
    | none => none
    | some b => cbRun (cbStep b c) cs

/-- Admissible events of property P1's hypothesis: a pointer-down only
lands while no drag is in progress, and the caller's stop callback does not
return false (its veto re-enters the stop path, which the counterexample
below shows breaks the claimed order).  All other events are
unconstrained. -/
def okEv (st : CoreState) : Ev → Bool
  | Ev.down _ _ _ _ _ _ _ => !st.dragging
  | Ev.move _ _ _ _ stopRet => stopRet
  | Ev.up _ _ stopRet => stopRet
  | Ev.timerFire _ => true
  | Ev.unmount => true

/-- Every event of the sequence is admissible in the state the machine has
reached when it arrives. -/
def okSeq (p : CoreProps) : CoreState → List Ev → Bool
  | _, [] => true
  | st, e :: es => okEv st e && okSeq p (coreStep p st e).1 es

/-- Helper: for numeric rect bounds with the node and owner window present,
getBoundPosition is exactly clampBounds and touches no cache. -/
theorem getBoundPosition_rect (b : DraggableBounds) (env : BoundsEnv)
    (cache : Option BoundsCacheRec) (selCache : Option (Option DomElem))
    (node : DomElem) (x y : ℚ)
    (hn : env.node = some node) (hw : env.ownerWindowPresent = true) :
    getBoundPosition (BoundsSpec.rect b) env cache selCache x y =
      Except.ok (clampBounds b x y, cache, selCache) := by
  unfold getBoundPosition
  simp [boundsFalsy, hn, hw]

/-- C10: getBoundPosition is the identity when no bounds apply — for a
false/absent bounds prop, an unresolvable node, or a missing owner window,
it returns the position unchanged without throwing and with both caches
untouched. -/
theorem c10_get_bound_position_identity (bounds : BoundsSpec) (env : BoundsEnv)
    (cache : Option BoundsCacheRec) (selCache : Option (Option DomElem)) (x y : ℚ)
    (h : bounds = BoundsSpec.off ∨ env.node = none ∨ env.ownerWindowPresent = false) :
    getBoundPosition bounds env cache selCache x y =
      Except.ok ((x, y), cache, selCache) := by
  rcases h with h | h | h
  · subst h; rfl
  · unfold getBoundPosition
    rw [h]
    split
    · rfl
    · rfl
  · unfold getBoundPosition
    rw [h]
    split
    · rfl
    · cases hn : env.node with
      | none => rfl
      | some node => simp

/-- Witness for c10_get_bound_position_identity at concrete inputs. -/
theorem c10_get_bound_position_identity_witness :
    getBoundPosition BoundsSpec.off
      { node := none, ownerWindowPresent := false, parentNode := none, queryResult := none }
      none none 3 7 = Except.ok ((3, 7), none, none) :=
  c10_get_bound_position_identity BoundsSpec.off
    { node := none, ownerWindowPresent := false, parentNode := none, queryResult := none }
    none none 3 7 (Or.inl rfl)

/-- C6: selector-based bounds configuration errors are fatal and
synchronous.  With the node and owner window present: (i) a non-empty
selector that misses the bounds cache and resolves to nothing or to a
non-element makes getBoundPosition throw; (ii) numeric rect bounds never
throw and return the clamped position; (iii) a selector resolving to an
HTMLElement never throws and returns the position clamped against the
style-derived bounds; (iv) a valid cache entry never throws and returns the
position clamped against the cached bounds. -/
theorem c6_selector_bounds_fatal (env : BoundsEnv) (node : DomElem)
    (cache : Option BoundsCacheRec) (selCache : Option (Option DomElem))
    (s : String) (x y : ℚ)
    (hn : env.node = some node) (hw : env.ownerWindowPresent = true)
    (hs : s.isEmpty = false) :
    ((cacheLookup s node cache = none →
      (resolveBoundNode s env selCache).1 = none →
      getBoundPosition (BoundsSpec.selector s) env cache selCache x y =
        Except.error ("Bounds selector " ++ s ++ " could not find an element.")) ∧
     (∀ el, cacheLookup s node cache = none →
      (resolveBoundNode s env selCache).1 = some el → el.isHTMLElement = false →
      getBoundPosition (BoundsSpec.selector s) env cache selCache x y =
        Except.error ("Bounds selector " ++ s ++ " could not find an element."))) ∧
    (∀ b : DraggableBounds,
      getBoundPosition (BoundsSpec.rect b) env cache selCache x y =
        Except.ok (clampBounds b x y, cache, selCache)) ∧
    (∀ el, cacheLookup s node cache = none →
      (resolveBoundNode s env selCache).1 = some el → el.isHTMLElement = true →
      ∃ bc,
      getBoundPosition (BoundsSpec.selector s) env cache selCache x y =
        Except.ok (clampBounds (computeSelectorBounds node el) x y, bc,
                   (resolveBoundNode s env selCache).2)) ∧
    (∀ b, cacheLookup s node cache = some b →
      getBoundPosition (BoundsSpec.selector s) env cache selCache x y =
        Except.ok (clampBounds b x y, cache, selCache)) := by
  refine ⟨⟨?_, ?_⟩, ?_, ?_, ?_⟩
  · intro hmiss hres
    unfold getBoundPosition
    simp [boundsFalsy, hs, hn, hw, hmiss, hres]
  · intro el hmiss hres hel
    unfold getBoundPosition
    simp [boundsFalsy, hs, hn, hw, hmiss, hres, hel]
  · intro b
    exact getBoundPosition_rect b env cache selCache node x y hn hw
  · intro el hmiss hres hel
    unfold getBoundPosition
    cases cache with
    | none =>
      refine ⟨none, ?_⟩
      simp [boundsFalsy, hs, hn, hw, hmiss, hres, hel]
    | some c =>
      refine ⟨some { key := s, node := some node, boundEl := some el,
                     boundClientWidth := el.clientWidth,
                     boundClientHeight := el.clientHeight,
                     nodeClientWidth := node.clientWidth,
                     nodeClientHeight := node.clientHeight,
                     bounds := some (computeSelectorBounds node el) }, ?_⟩
      simp [boundsFalsy, hs, hn, hw, hmiss, hres, hel]
  · intro b hhit
    unfold getBoundPosition
    simp [boundsFalsy, hs, hn, hw, hhit]

/-- Witness for c6_selector_bounds_fatal at concrete inputs: a selector that
resolves to nothing throws; numeric rect bounds clamp without throwing. -/
theorem c6_selector_bounds_fatal_witness :
    (getBoundPosition (BoundsSpec.selector ".container")
      { node := some { id := 0, isHTMLElement := true, inDocument := true,
                       clientWidth := 100, clientHeight := 50,
                       offsetLeft := 0, offsetTop := 0,
                       style := { paddingLeft := none, paddingRight := none,
                                  paddingTop := none, paddingBottom := none,
                                  marginLeft := none, marginRight := none,
                                  marginTop := none, marginBottom := none,
                                  borderLeftWidth := none, borderRightWidth := none,
                                  borderTopWidth := none, borderBottomWidth := none } },
        ownerWindowPresent := true, parentNode := none, queryResult := none }
      none none 1 2 =
      Except.error ("Bounds selector " ++ ".container" ++ " could not find an element.")) ∧
    (getBoundPosition
      (BoundsSpec.rect { left := some 0, right := some 10, top := none, bottom := none })
      { node := some { id := 0, isHTMLElement := true, inDocument := true,
                       clientWidth := 100, clientHeight := 50,
                       offsetLeft := 0, offsetTop := 0,
                       style := { paddingLeft := none, paddingRight := none,
                                  paddingTop := none, paddingBottom := none,
                                  marginLeft := none, marginRight := none,
                                  marginTop := none, marginBottom := none,
                                  borderLeftWidth := none, borderRightWidth := none,
                                  borderTopWidth := none, borderBottomWidth := none } },
        ownerWindowPresent := true, parentNode := none, queryResult := none }
      none none 20 2 = Except.ok ((10, 2), none, none)) := by
  constructor
  · exact (c6_selector_bounds_fatal
      { node := some { id := 0, isHTMLElement := true, inDocument := true,
                       clientWidth := 100, clientHeight := 50,
                       offsetLeft := 0, offsetTop := 0,
                       style := { paddingLeft := none, paddingRight := none,
                                  paddingTop := none, paddingBottom := none,
                                  marginLeft := none, marginRight := none,
                                  marginTop := none, marginBottom := none,
                                  borderLeftWidth := none, borderRightWidth := none,
                                  borderTopWidth := none, borderBottomWidth := none } },
        ownerWindowPresent := true, parentNode := none, queryResult := none }
      { id := 0, isHTMLElement := true, inDocument := true,
        clientWidth := 100, clientHeight := 50, offsetLeft := 0, offsetTop := 0,
        style := { paddingLeft := none, paddingRight := none,
                   paddingTop := none, paddingBottom := none,
                   marginLeft := none, marginRight := none,
                   marginTop := none, marginBottom := none,
                   borderLeftWidth := none, borderRightWidth := none,
                   borderTopWidth := none, borderBottomWidth := none } }
      none none ".container" 1 2 rfl rfl rfl).1.1 rfl rfl
  · have h := (c6_selector_bounds_fatal
      { node := some { id := 0, isHTMLElement := true, inDocument := true,
                       clientWidth := 100, clientHeight := 50,
                       offsetLeft := 0, offsetTop := 0,
                       style := { paddingLeft := none, paddingRight := none,
                                  paddingTop := none, paddingBottom := none,
                                  marginLeft := none, marginRight := none,
                                  marginTop := none, marginBottom := none,
                                  borderLeftWidth := none, borderRightWidth := none,
                                  borderTopWidth := none, borderBottomWidth := none } },
        ownerWindowPresent := true, parentNode := none, queryResult := none }
      { id := 0, isHTMLElement := true, inDocument := true,
        clientWidth := 100, clientHeight := 50, offsetLeft := 0, offsetTop := 0,
        style := { paddingLeft := none, paddingRight := none,
                   paddingTop := none, paddingBottom := none,
                   marginLeft := none, marginRight := none,
                   marginTop := none, marginBottom := none,
                   borderLeftWidth := none, borderRightWidth := none,
                   borderTopWidth := none, borderBottomWidth := none } }
      none none ".container" 20 2 rfl rfl rfl).2.1
      { left := some 0, right := some 10, top := none, bottom := none }
    rw [h]
    rfl

/-- C9 counterexample to the claim as stated: with threshold 30 and
maxSpeed 5/2, a distance of 0 yields speed 3, which exceeds the configured
maximum speed — the ceiling rounds the speed above a non-integer cap. -/
theorem c9_auto_scroll_speed_counterexample :
    calcAutoScrollSpeed 0 30 (5/2) = 3 ∧ ¬ calcAutoScrollSpeed 0 30 (5/2) ≤ 5/2 := by
  have h3 : calcAutoScrollSpeed 0 30 (5/2) = 3 := by
    unfold calcAutoScrollSpeed
    norm_num [min_def, max_def]
    have hc : ⌈(5:ℚ) / 2⌉ = (3:ℤ) := by
      rw [Int.ceil_eq_iff] ; norm_num
    exact_mod_cast hc
  refine ⟨h3, ?_⟩
  rw [h3]
  norm_num

/-- C9 amended: for distances inside the threshold the computed per-frame
speed equals ceil(((threshold - d) / threshold) * maxSpeed), is strictly
positive, and is capped at ceil(maxSpeed) (so at maxSpeed itself whenever
maxSpeed is an integer); for d at or beyond the threshold, or a
non-positive threshold or maxSpeed, the speed is zero. -/
theorem c9_auto_scroll_speed_amended (d t m : ℚ) :
    (0 ≤ d → d < t → 0 < m →
      calcAutoScrollSpeed d t m = ((⌈((t - d) / t) * m⌉ : ℤ) : ℚ) ∧
      0 < calcAutoScrollSpeed d t m ∧
      calcAutoScrollSpeed d t m ≤ ((⌈m⌉ : ℤ) : ℚ)) ∧
    ((t ≤ d ∨ t ≤ 0 ∨ m ≤ 0) → calcAutoScrollSpeed d t m = 0) := by
  constructor
  · intro hd hdt hm
    have ht : 0 < t := lt_of_le_of_lt hd hdt
    have hclamp : max 0 (min d t) = d := by
      rw [min_eq_left (le_of_lt hdt)]
      exact max_eq_right hd
    have hfracpos : 0 < (t - d) / t := div_pos (by linarith) ht
    have hcpos : 0 < ((t - d) / t) * m := mul_pos hfracpos hm
    have hceil : (0 : ℤ) < ⌈((t - d) / t) * m⌉ := Int.ceil_pos.mpr hcpos
    have heq : calcAutoScrollSpeed d t m = ((⌈((t - d) / t) * m⌉ : ℤ) : ℚ) := by
      unfold calcAutoScrollSpeed
      rw [if_neg (by push_neg; constructor <;> linarith)]
      rw [if_neg (by linarith)]
      simp only [hclamp]
      rw [if_pos hceil]
    refine ⟨heq, ?_, ?_⟩
    · rw [heq]
      exact_mod_cast hceil
    · rw [heq]
      have hfracle : (t - d) / t ≤ 1 := by
        rw [div_le_one ht]
        linarith
      have : ((t - d) / t) * m ≤ m := by
        calc ((t - d) / t) * m ≤ 1 * m := by
              exact mul_le_mul_of_nonneg_right hfracle (le_of_lt hm)
          _ = m := one_mul m
      exact_mod_cast Int.ceil_le_ceil this
  · intro h
    unfold calcAutoScrollSpeed
    rcases h with h | h | h
    · by_cases hz : t ≤ 0 ∨ m ≤ 0
      · rw [if_pos hz]
      · rw [if_neg hz, if_pos h]
    · rw [if_pos (Or.inl h)]
    · rw [if_pos (Or.inr h)]

/-- Witness for c9_auto_scroll_speed_amended: threshold 30, maxSpeed 20
(the defaults), distance 29 gives speed ceil((1/30)*20) = 1 > 0, within the
cap; distance 30 gives 0. -/
theorem c9_auto_scroll_speed_witness :
    calcAutoScrollSpeed 29 30 20 = 1 ∧ 0 < calcAutoScrollSpeed 29 30 20 ∧
    calcAutoScrollSpeed 29 30 20 ≤ 20 ∧ calcAutoScrollSpeed 30 30 20 = 0 := by
  have h := (c9_auto_scroll_speed_amended 29 30 20).1 (by norm_num) (by norm_num) (by norm_num)
  have h0 := (c9_auto_scroll_speed_amended 30 30 20).2 (Or.inl (by norm_num))
  refine ⟨?_, h.2.1, ?_, h0⟩
  · rw [h.1]
    have hc : ⌈((30:ℚ) - 29) / 30 * 20⌉ = 1 := by
      rw [Int.ceil_eq_iff] ; norm_num
    rw [hc]
    norm_num
  · calc calcAutoScrollSpeed 29 30 20 ≤ ((⌈(20:ℚ)⌉ : ℤ) : ℚ) := h.2.2
      _ = 20 := by norm_num

/-- Helper: with axis both, direction lock off and no committed lock axis,
scale 1, and rect bounds, one onDrag move adds the stored slack to the
proposed position before clamping and re-derives it afterwards as the old
slack plus (proposed position minus clamped position). -/
theorem onDrag_bounds_slack (p : DragProps) (st : DragState) (dx dy : ℚ)
    (b : DraggableBounds)
    (haxis : p.axis = Axis.both) (hlock : p.directionLock = false)
    (hscale : p.scale = 1) (hb : p.bounds = some b)
    (hst : st.directionLockAxis = none) :
    onDragStep p st dx dy =
      ({ x := (clampBounds b (st.x + dx + st.slackX) (st.y + dy + st.slackY)).1,
         y := (clampBounds b (st.x + dx + st.slackX) (st.y + dy + st.slackY)).2,
         deltaX := (clampBounds b (st.x + dx + st.slackX) (st.y + dy + st.slackY)).1 - st.x,
         deltaY := (clampBounds b (st.x + dx + st.slackX) (st.y + dy + st.slackY)).2 - st.y,
         lastX := st.x, lastY := st.y },
       { st with
         x := (clampBounds b (st.x + dx + st.slackX) (st.y + dy + st.slackY)).1,
         y := (clampBounds b (st.x + dx + st.slackX) (st.y + dy + st.slackY)).2,
         slackX := st.slackX + ((st.x + dx) - (clampBounds b (st.x + dx + st.slackX) (st.y + dy + st.slackY)).1),
         slackY := st.slackY + ((st.y + dy) - (clampBounds b (st.x + dx + st.slackX) (st.y + dy + st.slackY)).2) }) := by
  unfold onDragStep
  simp [haxis, hlock, hscale, hst, hb, canDragX, canDragY]

/-- C1 counterexample to the claimed scenario: with bounds
left 0 / right 100 / top 0 / bottom 100, from committed position (50,50)
with zero slack, a move of delta (+80,0) gives position (100,50) and slack
(30,0) — as claimed — but the subsequent move of delta (-50,0) gives
position (80,50) with slack (0,0), not (50,50): the stored slack 30 is
added to the proposed position 50 before clamping, and 80 is in bounds. -/
theorem c1_slack_roundtrip_counterexample :
    ((onDragStep ⟨Axis.both, false, 4, 1, some ⟨some 0, some 100, some 0, some 100⟩⟩
        ⟨50, 50, 0, 0, none, none, none, 0, 0⟩ 80 0).2 =
      ⟨100, 50, 30, 0, none, none, none, 0, 0⟩) ∧
    ((onDragStep ⟨Axis.both, false, 4, 1, some ⟨some 0, some 100, some 0, some 100⟩⟩
        ⟨100, 50, 30, 0, none, none, none, 0, 0⟩ (-50) 0).2 =
      ⟨80, 50, 0, 0, none, none, none, 0, 0⟩) ∧
    (80 : ℚ) ≠ 50 := by
  refine ⟨?_, ?_, by norm_num⟩
  · rw [onDrag_bounds_slack _ _ _ _ ⟨some 0, some 100, some 0, some 100⟩ rfl rfl rfl rfl rfl]
    norm_num [clampBounds, min_def, max_def]
  · rw [onDrag_bounds_slack _ _ _ _ ⟨some 0, some 100, some 0, some 100⟩ rfl rfl rfl rfl rfl]
    norm_num [clampBounds, min_def, max_def]

/-- C1 amended: on every bounded move (axis both, direction lock off, scale
1, numeric rect bounds), the stored slack is added to the proposed position
before clamping and re-derived afterwards as
old slack + (proposed - clamped), where "proposed" is the pre-slack
position; the reported position and deltas reflect the clamped result.
In the claimed scenario the first move gives (100,50) with slack (30,0),
but the subsequent (-50,0) move gives (80,50) with slack (0,0). -/
theorem c1_slack_roundtrip_amended (p : DragProps) (st : DragState) (dx dy : ℚ)
    (b : DraggableBounds)
    (haxis : p.axis = Axis.both) (hlock : p.directionLock = false)
    (hscale : p.scale = 1) (hb : p.bounds = some b)
    (hst : st.directionLockAxis = none) :
    onDragStep p st dx dy =
      ({ x := (clampBounds b (st.x + dx + st.slackX) (st.y + dy + st.slackY)).1,
         y := (clampBounds b (st.x + dx + st.slackX) (st.y + dy + st.slackY)).2,
         deltaX := (clampBounds b (st.x + dx + st.slackX) (st.y + dy + st.slackY)).1 - st.x,
         deltaY := (clampBounds b (st.x + dx + st.slackX) (st.y + dy + st.slackY)).2 - st.y,
         lastX := st.x, lastY := st.y },
       { st with
         x := (clampBounds b (st.x + dx + st.slackX) (st.y + dy + st.slackY)).1,
         y := (clampBounds b (st.x + dx + st.slackX) (st.y + dy + st.slackY)).2,
         slackX := st.slackX + ((st.x + dx) - (clampBounds b (st.x + dx + st.slackX) (st.y + dy + st.slackY)).1),
         slackY := st.slackY + ((st.y + dy) - (clampBounds b (st.x + dx + st.slackX) (st.y + dy + st.slackY)).2) }) :=
  onDrag_bounds_slack p st dx dy b haxis hlock hscale hb hst

/-- Witness for c1_slack_roundtrip_amended at the scenario's first move:
from (50,50) with zero slack, delta (+80,0) under bounds 0..100 commits
(100,50) and slack (30,0), reporting delta (50,0). -/
theorem c1_slack_roundtrip_witness :
    onDragStep ⟨Axis.both, false, 4, 1, some ⟨some 0, some 100, some 0, some 100⟩⟩
        ⟨50, 50, 0, 0, none, none, none, 0, 0⟩ 80 0 =
      (⟨100, 50, 50, 0, 50, 50⟩, ⟨100, 50, 30, 0, none, none, none, 0, 0⟩) := by
  rw [c1_slack_roundtrip_amended _ _ _ _ ⟨some 0, some 100, some 0, some 100⟩ rfl rfl rfl rfl rfl]
  norm_num [clampBounds, min_def, max_def]

/-- Helper: with no bounds and a committed x lock, one onDrag move reports
zero y delta, keeps y at its current value, and preserves the lock. -/
theorem onDrag_lock_x_pins (p : DragProps) (st : DragState) (dx dy : ℚ)
    (hbounds : p.bounds = none) (hlk : st.directionLockAxis = some LockAxis.x) :
    (onDragStep p st dx dy).1.deltaY = 0 ∧ (onDragStep p st dx dy).1.y = st.y ∧
    (onDragStep p st dx dy).2.y = st.y ∧
    (onDragStep p st dx dy).2.directionLockAxis = some LockAxis.x := by
  unfold onDragStep
  cases hfy : st.directionLockFixedY with
  | none => simp [hlk, hfy, hbounds]
  | some fy => simp [hlk, hfy, hbounds]

/-- Helper: with no bounds and a committed y lock, one onDrag move reports
zero x delta, keeps x at its current value, and preserves the lock. -/
theorem onDrag_lock_y_pins (p : DragProps) (st : DragState) (dx dy : ℚ)
    (hbounds : p.bounds = none) (hlk : st.directionLockAxis = some LockAxis.y) :
    (onDragStep p st dx dy).1.deltaX = 0 ∧ (onDragStep p st dx dy).1.x = st.x ∧
    (onDragStep p st dx dy).2.x = st.x ∧
    (onDragStep p st dx dy).2.directionLockAxis = some LockAxis.y := by
  unfold onDragStep
  cases hfx : st.directionLockFixedX with
  | none => simp [hlk, hfx, hbounds]
  | some fx => simp [hlk, hfx, hbounds]

/-- Helper: onDrag_lock_x_pins carried through the drag-callback veto. -/
theorem onDragVeto_lock_x_pins (p : DragProps) (st : DragState) (dx dy : ℚ)
    (a : Bool) (hbounds : p.bounds = none)
    (hlk : st.directionLockAxis = some LockAxis.x) :
    (onDragStepVeto p st dx dy a).1.deltaY = 0 ∧
    (onDragStepVeto p st dx dy a).1.y = st.y ∧
    (onDragStepVeto p st dx dy a).2.y = st.y ∧
    (onDragStepVeto p st dx dy a).2.directionLockAxis = some LockAxis.x := by
  have h := onDrag_lock_x_pins p st dx dy hbounds hlk
  unfold onDragStepVeto
  cases a with
  | true => simpa using h
  | false => simp [h.1, h.2.1, h.2.2.2]

/-- Helper: onDrag_lock_y_pins carried through the drag-callback veto. -/
theorem onDragVeto_lock_y_pins (p : DragProps) (st : DragState) (dx dy : ℚ)
    (a : Bool) (hbounds : p.bounds = none)
    (hlk : st.directionLockAxis = some LockAxis.y) :
    (onDragStepVeto p st dx dy a).1.deltaX = 0 ∧
    (onDragStepVeto p st dx dy a).1.x = st.x ∧
    (onDragStepVeto p st dx dy a).2.x = st.x ∧
    (onDragStepVeto p st dx dy a).2.directionLockAxis = some LockAxis.y := by
  have h := onDrag_lock_y_pins p st dx dy hbounds hlk
  unfold onDragStepVeto
  cases a with
  | true => simpa using h
  | false => simp [h.1, h.2.1, h.2.2.2]

/-- C8 counterexample to the claim as stated: with bounds
left 0 / right 100 / top 0 / bottom 100, direction lock on (threshold 4,
scale 1), committed position (0,-10) outside the bounds, a single move of
delta (10,0) commits the lock to the x axis (pinning y at -10) and yet
reports deltaY = 10: the bounds clamp moves the pinned axis from -10 to 0.
So not every post-lock reported delta on the pinned axis is zero. -/
theorem c8_direction_lock_counterexample :
    (onDragStep ⟨Axis.both, true, 4, 1, some ⟨some 0, some 100, some 0, some 100⟩⟩
        ⟨0, -10, 0, 0, none, none, none, 0, 0⟩ 10 0).2.directionLockAxis =
      some LockAxis.x ∧
    (onDragStep ⟨Axis.both, true, 4, 1, some ⟨some 0, some 100, some 0, some 100⟩⟩
        ⟨0, -10, 0, 0, none, none, none, 0, 0⟩ 10 0).2.directionLockFixedY = some (-10) ∧
    (onDragStep ⟨Axis.both, true, 4, 1, some ⟨some 0, some 100, some 0, some 100⟩⟩
        ⟨0, -10, 0, 0, none, none, none, 0, 0⟩ 10 0).1.deltaY = 10 ∧
    (onDragStep ⟨Axis.both, true, 4, 1, some ⟨some 0, some 100, some 0, some 100⟩⟩
        ⟨0, -10, 0, 0, none, none, none, 0, 0⟩ 10 0).2.y = 0 := by
  norm_num [onDragStep, getDirectionLockThreshold, canDragX, canDragY,
    clampBounds, min_def, max_def, abs]

/-- C8 amended: (commit) with axis both, direction lock enabled and scale 1,
an unlocked move whose accumulated raw displacement satisfies the threshold
test commits the lock to the axis of larger accumulated magnitude and pins
the other axis at the current committed position; (stability) with the lock
committed and bounds inactive, every subsequently reported delta on the
pinned axis is zero and the pinned-axis position never changes for the rest
of the gesture (with bounds active, clamping may still move a pinned-axis
value lying outside the bounds, per the counterexample). -/
theorem c8_direction_lock_stability (p : DragProps) :
    (∀ (st : DragState) (dx dy : ℚ),
      p.axis = Axis.both → p.directionLock = true → p.scale = 1 →
      st.directionLockAxis = none →
      (getDirectionLockThreshold p = 0 ∨
       getDirectionLockThreshold p * getDirectionLockThreshold p ≤
         (st.directionLockTotalX + dx) * (st.directionLockTotalX + dx) +
         (st.directionLockTotalY + dy) * (st.directionLockTotalY + dy)) →
      (onDragStep p st dx dy).2.directionLockAxis =
        some (if |st.directionLockTotalY + dy| ≤ |st.directionLockTotalX + dx|
              then LockAxis.x else LockAxis.y) ∧
      (onDragStep p st dx dy).2.directionLockFixedX = some st.x ∧
      (onDragStep p st dx dy).2.directionLockFixedY = some st.y) ∧
    (∀ (st : DragState) (ms : List (ℚ × ℚ × Bool)),
      p.bounds = none → st.directionLockAxis = some LockAxis.x →
      (∀ ui ∈ (runDrags p st ms).1, ui.deltaY = 0 ∧ ui.y = st.y) ∧
      (runDrags p st ms).2.y = st.y ∧
      (runDrags p st ms).2.directionLockAxis = some LockAxis.x) ∧
    (∀ (st : DragState) (ms : List (ℚ × ℚ × Bool)),
      p.bounds = none → st.directionLockAxis = some LockAxis.y →
      (∀ ui ∈ (runDrags p st ms).1, ui.deltaX = 0 ∧ ui.x = st.x) ∧
      (runDrags p st ms).2.x = st.x ∧
      (runDrags p st ms).2.directionLockAxis = some LockAxis.y) := by
  refine ⟨?_, ?_, ?_⟩
  · intro st dx dy haxis hlock hscale hunlocked hcond
    unfold onDragStep
    simp only [haxis, hlock, hscale, hunlocked, canDragX, canDragY, div_one] at *
    rw [if_pos hcond]
    simp
  · intro st ms
    induction ms generalizing st with
    | nil =>
      intro hb hlk
      exact ⟨by simp [runDrags], by simp [runDrags], by simp [runDrags, hlk]⟩
    | cons m rest ih =>
      intro hb hlk
      have hstep := onDragVeto_lock_x_pins p st m.1 m.2.1 m.2.2 hb hlk
      have hrest := ih (onDragStepVeto p st m.1 m.2.1 m.2.2).2 hb hstep.2.2.2
      refine ⟨?_, ?_, ?_⟩
      · intro ui hui
        simp only [runDrags, List.mem_cons] at hui
        rcases hui with hui | hui
        · subst hui
          exact ⟨hstep.1, hstep.2.1⟩
        · have h2 := hrest.1 ui hui
          rw [hstep.2.2.1] at h2
          exact h2
      · show (runDrags p (onDragStepVeto p st m.1 m.2.1 m.2.2).2 rest).2.y = st.y
        rw [hrest.2.1, hstep.2.2.1]
      · show (runDrags p (onDragStepVeto p st m.1 m.2.1 m.2.2).2 rest).2.directionLockAxis =
          some LockAxis.x
        exact hrest.2.2
  · intro st ms
    induction ms generalizing st with
    | nil =>
      intro hb hlk
      exact ⟨by simp [runDrags], by simp [runDrags], by simp [runDrags, hlk]⟩
    | cons m rest ih =>
      intro hb hlk
      have hstep := onDragVeto_lock_y_pins p st m.1 m.2.1 m.2.2 hb hlk
      have hrest := ih (onDragStepVeto p st m.1 m.2.1 m.2.2).2 hb hstep.2.2.2
      refine ⟨?_, ?_, ?_⟩
      · intro ui hui
        simp only [runDrags, List.mem_cons] at hui
        rcases hui with hui | hui
        · subst hui
          exact ⟨hstep.1, hstep.2.1⟩
        · have h2 := hrest.1 ui hui
          rw [hstep.2.2.1] at h2
          exact h2
      · show (runDrags p (onDragStepVeto p st m.1 m.2.1 m.2.2).2 rest).2.x = st.x
        rw [hrest.2.1, hstep.2.2.1]
      · show (runDrags p (onDragStepVeto p st m.1 m.2.1 m.2.2).2 rest).2.directionLockAxis =
          some LockAxis.y
        exact hrest.2.2

/-- Witness for c8_direction_lock_stability: with threshold 4 and scale 1,
a first move of delta (10,0) from (5,7) commits the lock to x; and from a
locked state pinned at y = 7, a further move leaves y at 7. -/
theorem c8_direction_lock_witness :
    (onDragStep ⟨Axis.both, true, 4, 1, none⟩
        ⟨5, 7, 0, 0, none, none, none, 0, 0⟩ 10 0).2.directionLockAxis =
      some LockAxis.x ∧
    (runDrags ⟨Axis.both, true, 4, 1, none⟩
        ⟨5, 7, 0, 0, some LockAxis.x, some 5, some 7, 10, 0⟩ [(3, 4, true)]).2.y = 7 := by
  constructor
  · have h := (c8_direction_lock_stability ⟨Axis.both, true, 4, 1, none⟩).1
      ⟨5, 7, 0, 0, none, none, none, 0, 0⟩ 10 0 rfl rfl rfl rfl
      (Or.inr (by norm_num [getDirectionLockThreshold]))
    rw [h.1]
    norm_num
  · exact ((c8_direction_lock_stability ⟨Axis.both, true, 4, 1, none⟩).2.1
      ⟨5, 7, 0, 0, some LockAxis.x, some 5, some 7, 10, 0⟩ [(3, 4, true)] rfl rfl).2.1

/-- C2 counterexample to the claim as stated: in a dragging state with
listeners attached and the user-select suppression installed, a release
whose stop callback returns false fires the stop callback but performs no
cleanup at all — the state is returned unchanged: the dragging flag stays
true, the last coordinates stay set, the document listeners stay attached,
and the user-select suppression stays installed. -/
theorem c2_stop_veto_counterexample :
    (handleDragStopStep CoreProps.default
       { dragging := true, last := some (0, 0), touchIdentifier := none,
         pointerIdentifier := none, mounted := true, listenersAttached := true,
         userSelectSuppressed := true, pointerCaptured := false,
         pendingDragStart := false, pendingDragStartMode := none,
         dragStart := some (0, 0), pendingPos := some (0, 0),
         dragStartDelayPassed := false, delayTimerArmed := false,
         hasDragged := true }
       none (some (5, 5)) false).1 =
      { dragging := true, last := some (0, 0), touchIdentifier := none,
        pointerIdentifier := none, mounted := true, listenersAttached := true,
        userSelectSuppressed := true, pointerCaptured := false,
        pendingDragStart := false, pendingDragStartMode := none,
        dragStart := some (0, 0), pendingPos := some (0, 0),
        dragStartDelayPassed := false, delayTimerArmed := false,
        hasDragged := true } ∧
    (handleDragStopStep CoreProps.default
       { dragging := true, last := some (0, 0), touchIdentifier := none,
         pointerIdentifier := none, mounted := true, listenersAttached := true,
         userSelectSuppressed := true, pointerCaptured := false,
         pendingDragStart := false, pendingDragStartMode := none,
         dragStart := some (0, 0), pendingPos := some (0, 0),
         dragStartDelayPassed := false, delayTimerArmed := false,
         hasDragged := true }
       none (some (5, 5)) false).2 =
      [CB.stop false { x := 5, y := 5, deltaX := 5, deltaY := 5, lastX := 0, lastY := 0 }] := by
  constructor
  · simp [handleDragStopStep, handleDragStopBody, CoreProps.default, createCoreData]
  · simp [handleDragStopStep, handleDragStopBody, CoreProps.default, createCoreData]

/-- C2 amended: cleanup on release is conditional on the stop callback: when
the stop callback does not return false (and the component is mounted), a
release in a dragging state resets the dragging flag and last coordinates,
clears both identifiers, removes the document move/stop listeners, and
removes the user-select suppression when the hack is enabled, firing the
stop callback exactly once; but a stop callback returning false makes the
handler return before any cleanup (per the counterexample). -/
theorem c2_stop_cleanup_amended (p : CoreProps) (st : CoreState) (pos : Pt)
    (hd : st.dragging = true) (hm : st.mounted = true) :
    (handleDragStopStep p st st.pointerIdentifier (some pos) true).1.dragging = false ∧
    (handleDragStopStep p st st.pointerIdentifier (some pos) true).1.last = none ∧
    (handleDragStopStep p st st.pointerIdentifier (some pos) true).1.listenersAttached = false ∧
    (handleDragStopStep p st st.pointerIdentifier (some pos) true).1.touchIdentifier = none ∧
    (handleDragStopStep p st st.pointerIdentifier (some pos) true).1.pointerIdentifier = none ∧
    (handleDragStopStep p st st.pointerIdentifier (some pos) true).1.userSelectSuppressed =
      (if p.enableUserSelectHack then false else st.userSelectSuppressed) ∧
    (∃ d, (handleDragStopStep p st st.pointerIdentifier (some pos) true).2 =
      [CB.stop true d]) := by
  have hstep : handleDragStopStep p st st.pointerIdentifier (some pos) true =
      handleDragStopBody p st (some pos) true := by
    unfold handleDragStopStep
    rw [if_neg (by simp [hd])]
    cases hpi : st.pointerIdentifier with
    | none => rfl
    | some b => simp
  rw [hstep]
  unfold handleDragStopBody
  rw [if_pos hd]
  cases hg : p.grid <;> cases hl : st.last <;>
    cases hh : p.enableUserSelectHack <;>
      simp [hm, hh, stopCleanup]

/-- Witness for c2_stop_cleanup_amended: a concrete accepted release resets
the gesture and removes listeners and user-select suppression. -/
theorem c2_stop_cleanup_witness :
    (handleDragStopStep CoreProps.default
       { dragging := true, last := some (0, 0), touchIdentifier := none,
         pointerIdentifier := none, mounted := true, listenersAttached := true,
         userSelectSuppressed := true, pointerCaptured := false,
         pendingDragStart := false, pendingDragStartMode := none,
         dragStart := some (0, 0), pendingPos := some (0, 0),
         dragStartDelayPassed := false, delayTimerArmed := false,
         hasDragged := true }
       none (some (5, 5)) true).1.dragging = false ∧
    (handleDragStopStep CoreProps.default
       { dragging := true, last := some (0, 0), touchIdentifier := none,
         pointerIdentifier := none, mounted := true, listenersAttached := true,
         userSelectSuppressed := true, pointerCaptured := false,
         pendingDragStart := false, pendingDragStartMode := none,
         dragStart := some (0, 0), pendingPos := some (0, 0),
         dragStartDelayPassed := false, delayTimerArmed := false,
         hasDragged := true }
       none (some (5, 5)) true).1.listenersAttached = false ∧
    (handleDragStopStep CoreProps.default
       { dragging := true, last := some (0, 0), touchIdentifier := none,
         pointerIdentifier := none, mounted := true, listenersAttached := true,
         userSelectSuppressed := true, pointerCaptured := false,
         pendingDragStart := false, pendingDragStartMode := none,
         dragStart := some (0, 0), pendingPos := some (0, 0),
         dragStartDelayPassed := false, delayTimerArmed := false,
         hasDragged := true }
       none (some (5, 5)) true).1.userSelectSuppressed = false := by
  have h := c2_stop_cleanup_amended CoreProps.default
    { dragging := true, last := some (0, 0), touchIdentifier := none,
      pointerIdentifier := none, mounted := true, listenersAttached := true,
      userSelectSuppressed := true, pointerCaptured := false,
      pendingDragStart := false, pendingDragStartMode := none,
      dragStart := some (0, 0), pendingPos := some (0, 0),
      dragStartDelayPassed := false, delayTimerArmed := false,
      hasDragged := true }
    (5, 5) rfl rfl
  exact ⟨h.1, h.2.2.1, by rw [h.2.2.2.2.2.1]; rfl⟩

/-- C3 counterexample to the claim as stated: unmounting mid-gesture (here:
dragging with listeners attached and user-select suppression installed)
fires no callback at all — in particular the stop callback is skipped for
the in-flight gesture, and the dragging flag is not even reset. -/
theorem c3_unmount_counterexample :
    (coreStep CoreProps.default
       { dragging := true, last := some (0, 0), touchIdentifier := none,
         pointerIdentifier := some 1, mounted := true, listenersAttached := true,
         userSelectSuppressed := true, pointerCaptured := true,
         pendingDragStart := false, pendingDragStartMode := none,
         dragStart := some (0, 0), pendingPos := some (0, 0),
         dragStartDelayPassed := false, delayTimerArmed := false,
         hasDragged := true }
       Ev.unmount).2 = [] ∧
    (coreStep CoreProps.default
       { dragging := true, last := some (0, 0), touchIdentifier := none,
         pointerIdentifier := some 1, mounted := true, listenersAttached := true,
         userSelectSuppressed := true, pointerCaptured := true,
         pendingDragStart := false, pendingDragStartMode := none,
         dragStart := some (0, 0), pendingPos := some (0, 0),
         dragStartDelayPassed := false, delayTimerArmed := false,
         hasDragged := true }
       Ev.unmount).1.dragging = true := by
  constructor
  · simp [coreStep, unmountStep, CoreProps.default]
  · simp [coreStep, unmountStep, CoreProps.default]

/-- C3 amended: unmounting performs the full resource teardown — clears the
delay timer, releases pointer capture, clears both identifiers, removes all
listeners, and removes the user-select suppression when the hack is
enabled — but it fires no callback: the stop callback is skipped for an
in-flight gesture, and the dragging flag and last coordinates are left
untouched. -/
theorem c3_unmount_teardown_amended (p : CoreProps) (st : CoreState)
    (hm : st.mounted = true) :
    (coreStep p st Ev.unmount).2 = [] ∧
    (coreStep p st Ev.unmount).1.mounted = false ∧
    (coreStep p st Ev.unmount).1.delayTimerArmed = false ∧
    (coreStep p st Ev.unmount).1.pointerCaptured = false ∧
    (coreStep p st Ev.unmount).1.pointerIdentifier = none ∧
    (coreStep p st Ev.unmount).1.touchIdentifier = none ∧
    (coreStep p st Ev.unmount).1.listenersAttached = false ∧
    (p.enableUserSelectHack = true → (coreStep p st Ev.unmount).1.userSelectSuppressed = false) ∧
    (coreStep p st Ev.unmount).1.dragging = st.dragging ∧
    (coreStep p st Ev.unmount).1.last = st.last := by
  unfold coreStep unmountStep
  simp only [hm]
  cases hh : p.enableUserSelectHack <;> simp [hh]

/-- Witness for c3_unmount_teardown_amended at a concrete mid-gesture
state. -/
theorem c3_unmount_teardown_witness :
    (coreStep CoreProps.default
       { dragging := true, last := some (0, 0), touchIdentifier := none,
         pointerIdentifier := some 1, mounted := true, listenersAttached := true,
         userSelectSuppressed := true, pointerCaptured := true,
         pendingDragStart := false, pendingDragStartMode := none,
         dragStart := some (0, 0), pendingPos := some (0, 0),
         dragStartDelayPassed := false, delayTimerArmed := true,
         hasDragged := true }
       Ev.unmount).2 = [] ∧
    (coreStep CoreProps.default
       { dragging := true, last := some (0, 0), touchIdentifier := none,
         pointerIdentifier := some 1, mounted := true, listenersAttached := true,
         userSelectSuppressed := true, pointerCaptured := true,
         pendingDragStart := false, pendingDragStartMode := none,
         dragStart := some (0, 0), pendingPos := some (0, 0),
         dragStartDelayPassed := false, delayTimerArmed := true,
         hasDragged := true }
       Ev.unmount).1.listenersAttached = false ∧
    (coreStep CoreProps.default
       { dragging := true, last := some (0, 0), touchIdentifier := none,
         pointerIdentifier := some 1, mounted := true, listenersAttached := true,
         userSelectSuppressed := true, pointerCaptured := true,
         pendingDragStart := false, pendingDragStartMode := none,
         dragStart := some (0, 0), pendingPos := some (0, 0),
         dragStartDelayPassed := false, delayTimerArmed := true,
         hasDragged := true }
       Ev.unmount).1.userSelectSuppressed = false := by
  have h := c3_unmount_teardown_amended CoreProps.default
    { dragging := true, last := some (0, 0), touchIdentifier := none,
      pointerIdentifier := some 1, mounted := true, listenersAttached := true,
      userSelectSuppressed := true, pointerCaptured := true,
      pendingDragStart := false, pendingDragStartMode := none,
      dragStart := some (0, 0), pendingPos := some (0, 0),
      dragStartDelayPassed := false, delayTimerArmed := true,
      hasDragged := true } rfl
  exact ⟨h.1, h.2.2.2.2.2.2.1, h.2.2.2.2.2.2.2.1 rfl⟩

/-- Helper: snapping a zero delta yields a zero delta. -/
theorem snapToGrid_zero (g : ℚ × ℚ) : snapToGrid g 0 0 = ((0 : ℚ), (0 : ℚ)) := by
  have h : jsRound 0 = 0 := by
    unfold jsRound
    norm_num
  simp [snapToGrid, h]

/-- Helper: JS Math.round-based snapping lands within half a grid step of
the requested delta (the nearest-multiple property). -/
theorem jsRound_mul_nearest (d g : ℚ) (hg : 0 < g) :
    |(jsRound (d / g) : ℚ) * g - d| ≤ g / 2 := by
  unfold jsRound
  have h1 : ((⌊d / g + 1/2⌋ : ℤ) : ℚ) ≤ d / g + 1/2 := Int.floor_le _
  have h2 : d / g + 1/2 - 1 < ((⌊d / g + 1/2⌋ : ℤ) : ℚ) := Int.sub_one_lt_floor _
  have hd : d = (d / g) * g := by
    field_simp
  rw [abs_le]
  constructor
  · nlinarith [mul_le_mul_of_nonneg_right (by linarith : d / g - 1/2 ≤ ((⌊d / g + 1/2⌋ : ℤ) : ℚ)) (le_of_lt hg)]
  · nlinarith [mul_le_mul_of_nonneg_right (by linarith : ((⌊d / g + 1/2⌋ : ℤ) : ℚ) ≤ d / g + 1/2) (le_of_lt hg)]

/-- C5: grid snapping.  With a grid configured (positive steps), while
dragging: the delta since the last committed position is rounded to the
nearest multiple of the grid step on each axis (an exact integer multiple,
within half a step of the raw delta); if the rounded delta is zero on both
axes the move event is discarded — no callback fires and the state is
unchanged; otherwise exactly one move callback fires whose committed
position is the last position plus the snapped delta and whose reported
delta is the snapped delta. -/
theorem c5_grid_snap (p : CoreProps) (st : CoreState) (pos : Pt) (g : ℚ × ℚ)
    (l : Pt) (hg : p.grid = some g) (hgx : 0 < g.1) (hgy : 0 < g.2)
    (hd : st.dragging = true) (hm : st.mounted = true)
    (hpid : st.pointerIdentifier = none) (hl : st.last = some l)
    (hlst : st.listenersAttached = true) :
    (((snapToGrid g (pos.1 - l.1) (pos.2 - l.2)).1 = 0 ∧
      (snapToGrid g (pos.1 - l.1) (pos.2 - l.2)).2 = 0) →
      coreStep p st (Ev.move none (some pos) true true true) = (st, [])) ∧
    (¬((snapToGrid g (pos.1 - l.1) (pos.2 - l.2)).1 = 0 ∧
       (snapToGrid g (pos.1 - l.1) (pos.2 - l.2)).2 = 0) →
      coreStep p st (Ev.move none (some pos) true true true) =
        ({ st with
           last := some (l.1 + (snapToGrid g (pos.1 - l.1) (pos.2 - l.2)).1,
                         l.2 + (snapToGrid g (pos.1 - l.1) (pos.2 - l.2)).2),
           hasDragged := true },
         [CB.move { x := l.1 + (snapToGrid g (pos.1 - l.1) (pos.2 - l.2)).1,
                    y := l.2 + (snapToGrid g (pos.1 - l.1) (pos.2 - l.2)).2,
                    deltaX := (snapToGrid g (pos.1 - l.1) (pos.2 - l.2)).1,
                    deltaY := (snapToGrid g (pos.1 - l.1) (pos.2 - l.2)).2,
                    lastX := l.1, lastY := l.2 }])) ∧
    (∃ kx : ℤ, (snapToGrid g (pos.1 - l.1) (pos.2 - l.2)).1 = (kx : ℚ) * g.1) ∧
    (∃ ky : ℤ, (snapToGrid g (pos.1 - l.1) (pos.2 - l.2)).2 = (ky : ℚ) * g.2) ∧
    |(snapToGrid g (pos.1 - l.1) (pos.2 - l.2)).1 - (pos.1 - l.1)| ≤ g.1 / 2 ∧
    |(snapToGrid g (pos.1 - l.1) (pos.2 - l.2)).2 - (pos.2 - l.2)| ≤ g.2 / 2 := by
  have hstep : coreStep p st (Ev.move none (some pos) true true true) =
      handleDragBody p st none (some pos) true true true := by
    simp [coreStep, handleDragStep, hlst, hpid]
  refine ⟨?_, ?_, ⟨jsRound ((pos.1 - l.1) / g.1), rfl⟩,
          ⟨jsRound ((pos.2 - l.2) / g.2), rfl⟩,
          jsRound_mul_nearest (pos.1 - l.1) g.1 hgx,
          jsRound_mul_nearest (pos.2 - l.2) g.2 hgy⟩
  · intro hz
    rw [hstep]
    by_cases hpos : pos = l
    · simp [handleDragBody, handleDragCommit, hd, hl, hpos]
    · have hlp : l ≠ pos := fun h => hpos h.symm
      simp [handleDragBody, handleDragCommit, hd, hl, hg, hlp, hz.1, hz.2]
  · intro hz
    have hpos : pos ≠ l := by
      intro h
      apply hz
      rw [h, sub_self, sub_self, snapToGrid_zero]
      exact ⟨rfl, rfl⟩
    have hlp : l ≠ pos := fun h => hpos h.symm
    rw [hstep]
    simp [handleDragBody, handleDragCommit, hd, hl, hg, hlp, hz, hm, createCoreData]

/-- Witness for c5_grid_snap: pointer-down at (0,0) then move to (10,4)
with grid [5,5] commits position (10,5) with reported delta (10,5)
(scenario A of the specification). -/
theorem c5_grid_snap_witness :
    coreStep { allowAnyClick := false, disabled := false, enableUserSelectHack := true,
               grid := some (5, 5), dragStartThreshold := 0, dragStartDelay := 0,
               dragStartDelayTolerance := 5, scale := 1 }
      { dragging := true, last := some (0, 0), touchIdentifier := none,
        pointerIdentifier := none, mounted := true, listenersAttached := true,
        userSelectSuppressed := true, pointerCaptured := false,
        pendingDragStart := false, pendingDragStartMode := none,
        dragStart := some (0, 0), pendingPos := some (0, 0),
        dragStartDelayPassed := false, delayTimerArmed := false,
        hasDragged := false }
      (Ev.move none (some (10, 4)) true true true) =
      ({ dragging := true, last := some (10, 5), touchIdentifier := none,
         pointerIdentifier := none, mounted := true, listenersAttached := true,
         userSelectSuppressed := true, pointerCaptured := false,
         pendingDragStart := false, pendingDragStartMode := none,
         dragStart := some (0, 0), pendingPos := some (0, 0),
         dragStartDelayPassed := false, delayTimerArmed := false,
         hasDragged := true },
       [CB.move { x := 10, y := 5, deltaX := 10, deltaY := 5, lastX := 0, lastY := 0 }]) := by
  have hf1 : ⌊(10 : ℚ) / 5 + 1/2⌋ = 2 := by
    rw [Int.floor_eq_iff] ; norm_num
  have hf2 : ⌊(4 : ℚ) / 5 + 1/2⌋ = 1 := by
    rw [Int.floor_eq_iff] ; norm_num
  have hsnap : snapToGrid (5, 5) ((10, 4).1 - ((0, 0) : Pt).1) ((10, 4).2 - ((0, 0) : Pt).2)
      = ((10 : ℚ), (5 : ℚ)) := by
    unfold snapToGrid jsRound
    norm_num [hf1, hf2]
  have h := (c5_grid_snap
    { allowAnyClick := false, disabled := false, enableUserSelectHack := true,
      grid := some (5, 5), dragStartThreshold := 0, dragStartDelay := 0,
      dragStartDelayTolerance := 5, scale := 1 }
    { dragging := true, last := some (0, 0), touchIdentifier := none,
      pointerIdentifier := none, mounted := true, listenersAttached := true,
      userSelectSuppressed := true, pointerCaptured := false,
      pendingDragStart := false, pendingDragStartMode := none,
      dragStart := some (0, 0), pendingPos := some (0, 0),
      dragStartDelayPassed := false, delayTimerArmed := false,
      hasDragged := false }
    (10, 4) (5, 5) (0, 0) rfl (by norm_num) (by norm_num) rfl rfl rfl rfl rfl).2.1
    (by rw [hsnap]; norm_num)
  rw [h, hsnap]
  norm_num

/-- C7 counterexample to the claim as stated: a second pointer-down carrying
pointer identifier 2, while the gesture is bound to identifier 1, is not
filtered: handleDragStart re-runs, rebinds the gesture to pointer 2, resets
the last coordinates, and fires the start callback a second time.  So not
every event with an untracked identifier leaves gesture state untouched. -/
theorem c7_identifier_isolation_counterexample :
    (coreRun CoreProps.default CoreState.init
      [Ev.down false 0 false (some 1) none (some (0, 0)) true,
       Ev.down false 0 false (some 2) none (some (5, 5)) true]).1.pointerIdentifier =
      some 2 ∧
    (coreRun CoreProps.default CoreState.init
      [Ev.down false 0 false (some 1) none (some (0, 0)) true,
       Ev.down false 0 false (some 2) none (some (5, 5)) true]).1.last = some (5, 5) ∧
    (coreRun CoreProps.default CoreState.init
      [Ev.down false 0 false (some 1) none (some (0, 0)) true,
       Ev.down false 0 false (some 2) none (some (5, 5)) true]).2 =
      [CB.start true { x := 0, y := 0, deltaX := 0, deltaY := 0, lastX := 0, lastY := 0 },
       CB.start true { x := 5, y := 5, deltaX := 0, deltaY := 0, lastX := 5, lastY := 5 }] := by
  refine ⟨?_, ?_, ?_⟩ <;>
    simp [coreRun, coreStep, handleDragStartStep, startDrag, createCoreData,
      CoreProps.default, CoreState.init, getDragStartDelay, getDragStartThreshold]

/-- C7 amended: identifier isolation holds for move and release events — an
event carrying a pointer identifier different from the one bound at gesture
start is dropped with no state change and no callback, and a touch event
containing no touch with the tracked identifier yields a null control
position (so the handlers return before touching any state).  A
pointer-down with a new identifier, however, is not filtered (per the
counterexample): it rebinds the gesture and re-fires start. -/
theorem c7_identifier_isolation_amended (p : CoreProps) (st : CoreState)
    (b q : ℤ) (hb : st.pointerIdentifier = some b) (hq : q ≠ b) :
    (∀ posO a d s, coreStep p st (Ev.move (some q) posO a d s) = (st, [])) ∧
    (∀ posO s, coreStep p st (Ev.up (some q) posO s) = (st, [])) ∧
    (∀ (e : TouchEvt) (tid : ℤ) (nodePresent : Bool) (op : OffsetParentInfo) (scale : ℚ),
      (∀ ts, e.targetTouches = some ts → ∀ t ∈ ts, t.identifier ≠ tid) →
      (∀ ts, e.changedTouches = some ts → ∀ t ∈ ts, t.identifier ≠ tid) →
      getControlPosition e (some tid) nodePresent op scale = none) := by
  refine ⟨?_, ?_, ?_⟩
  · intro posO a d s
    unfold coreStep
    by_cases hl : st.listenersAttached <;>
      simp [hl, handleDragStep, hb, hq]
  · intro posO s
    unfold coreStep
    by_cases hl : st.listenersAttached <;>
      by_cases hidle : !st.dragging ∧ !st.pendingDragStart <;>
        simp [hl, handleDragStopStep, hb, hq, hidle]
  · intro e tid nodePresent op scale h1 h2
    have hta : e.targetTouches.bind
        (fun ts => ts.find? (fun t => tid == t.identifier)) = none := by
      cases hts : e.targetTouches with
      | none => rfl
      | some ts =>
        simp only [Option.bind_eq_bind, Option.some_bind]
        rw [List.find?_eq_none]
        intro t htmem
        simp only [beq_iff_eq]
        exact fun hh => (h1 ts hts t htmem) hh.symm
    have htc : e.changedTouches.bind
        (fun ts => ts.find? (fun t => tid == t.identifier)) = none := by
      cases hts : e.changedTouches with
      | none => rfl
      | some ts =>
        simp only [Option.bind_eq_bind, Option.some_bind]
        rw [List.find?_eq_none]
        intro t htmem
        simp only [beq_iff_eq]
        exact fun hh => (h2 ts hts t htmem) hh.symm
    have ht : getTouch e tid = none := by
      unfold getTouch
      rw [hta, htc]
    unfold getControlPosition
    simp [ht]

/-- Witness for c7_identifier_isolation_amended: with the gesture bound to
pointer 1, a move and a release carrying pointer 2 change nothing and fire
nothing, and a touch event whose only touch has identifier 3 yields a null
control position when touch 7 is tracked. -/
theorem c7_identifier_isolation_witness :
    coreStep CoreProps.default
      { dragging := true, last := some (0, 0), touchIdentifier := none,
        pointerIdentifier := some 1, mounted := true, listenersAttached := true,
        userSelectSuppressed := true, pointerCaptured := true,
        pendingDragStart := false, pendingDragStartMode := none,
        dragStart := some (0, 0), pendingPos := some (0, 0),
        dragStartDelayPassed := false, delayTimerArmed := false,
        hasDragged := false }
      (Ev.move (some 2) (some (5, 5)) true true true) =
      ({ dragging := true, last := some (0, 0), touchIdentifier := none,
         pointerIdentifier := some 1, mounted := true, listenersAttached := true,
         userSelectSuppressed := true, pointerCaptured := true,
         pendingDragStart := false, pendingDragStartMode := none,
         dragStart := some (0, 0), pendingPos := some (0, 0),
         dragStartDelayPassed := false, delayTimerArmed := false,
         hasDragged := false }, []) ∧
    coreStep CoreProps.default
      { dragging := true, last := some (0, 0), touchIdentifier := none,
        pointerIdentifier := some 1, mounted := true, listenersAttached := true,
        userSelectSuppressed := true, pointerCaptured := true,
        pendingDragStart := false, pendingDragStartMode := none,
        dragStart := some (0, 0), pendingPos := some (0, 0),
        dragStartDelayPassed := false, delayTimerArmed := false,
        hasDragged := false }
      (Ev.up (some 2) (some (5, 5)) true) =
      ({ dragging := true, last := some (0, 0), touchIdentifier := none,
         pointerIdentifier := some 1, mounted := true, listenersAttached := true,
         userSelectSuppressed := true, pointerCaptured := true,
         pendingDragStart := false, pendingDragStartMode := none,
         dragStart := some (0, 0), pendingPos := some (0, 0),
         dragStartDelayPassed := false, delayTimerArmed := false,
         hasDragged := false }, []) ∧
    getControlPosition
      { targetTouches := some [{ identifier := 3, clientX := 1, clientY := 2 }],
        changedTouches := none, clientX := 0, clientY := 0 }
      (some 7) true { scrollLeft := 0, scrollTop := 0, rectLeft := 0, rectTop := 0 } 1 =
      none := by
  have h := c7_identifier_isolation_amended CoreProps.default
    { dragging := true, last := some (0, 0), touchIdentifier := none,
      pointerIdentifier := some 1, mounted := true, listenersAttached := true,
      userSelectSuppressed := true, pointerCaptured := true,
      pendingDragStart := false, pendingDragStartMode := none,
      dragStart := some (0, 0), pendingPos := some (0, 0),
      dragStartDelayPassed := false, delayTimerArmed := false,
      hasDragged := false }
    1 2 rfl (by norm_num)
  refine ⟨h.1 (some (5, 5)) true true true, h.2.1 (some (5, 5)) true, ?_⟩
  apply h.2.2
  · intro ts hts t htm
    injection hts with hts
    subst hts
    rw [List.mem_singleton] at htm
    subst htm
    decide
  · intro ts hts t htm
    exact nomatch hts

/-- Helper: a violated automaton stays violated. -/
theorem cbRun_none (cs : List CB) : cbRun none cs = none := by
  cases cs <;> rfl

/-- Helper: the automaton runs compositionally over concatenation. -/
theorem cbRun_append (s : Option Bool) (a b : List CB) :
    cbRun s (a ++ b) = cbRun (cbRun s a) b := by
  induction a generalizing s with
  | nil => rfl
  | cons c cs ih =>
    cases s with
    | none => simp [cbRun, cbRun_none]
    | some v => simp [cbRun, ih]

/-- Helper: the outcome of startDrag — the start callback fires exactly
once with the caller's verdict; on acceptance the drag flag is set and the
listeners are untouched, on veto everything is reset. -/
theorem startDrag_spec (p : CoreProps) (st : CoreState) (pos : Pt)
    (r reset : Bool) (hm : st.mounted = true) :
    (startDrag p st pos r reset).2.1 =
      [CB.start r (createCoreData none pos.1 pos.2)] ∧
    (startDrag p st pos r reset).2.2 = r ∧
    (startDrag p st pos r reset).1.dragging = r ∧
    (startDrag p st pos r reset).1.mounted = true ∧
    ((startDrag p st pos r reset).1.listenersAttached = true →
      st.listenersAttached = true) := by
  cases r <;> cases reset <;> cases hh : p.enableUserSelectHack <;>
    simp [startDrag, cancelPendingDragStart, hm, hh]

/-- Helper: the outcome of tryStartDrag from a non-dragging state — the
emitted callbacks drive the order automaton from closed to the started
verdict, which also matches the resulting drag flag. -/
theorem tryStartDrag_spec (p : CoreProps) (st : CoreState) (pos : Pt)
    (r : Bool) (hm : st.mounted = true) (hd : st.dragging = false) :
    cbRun (some false) (tryStartDrag p st pos r).2.1 =
      some (tryStartDrag p st pos r).2.2 ∧
    (tryStartDrag p st pos r).1.dragging = (tryStartDrag p st pos r).2.2 ∧
    (tryStartDrag p st pos r).1.mounted = true ∧
    ((tryStartDrag p st pos r).1.listenersAttached = true →
      st.listenersAttached = true) := by
  unfold tryStartDrag
  by_cases hp : st.pendingDragStart
  · simp only [hp, Bool.not_true, Bool.false_eq_true, if_false]
    by_cases hmode : st.pendingDragStartMode == some PMode.delay
    · simp only [hmode, if_true]
      by_cases hpass : st.dragStartDelayPassed
      · have h := startDrag_spec p st pos r true hm
        simp only [hpass, Bool.not_true, Bool.false_eq_true, if_false]
        exact ⟨by rw [h.1]; cases r <;> simp [cbRun, cbStep, h.2.1],
               by rw [h.2.1, h.2.2.1], h.2.2.2.1, h.2.2.2.2⟩
      · simp [hpass, cbRun, hm, hd]
    · simp only [hmode, Bool.false_eq_true, if_false]
      by_cases hthr : meetsDragStartThreshold p st pos.1 pos.2
      · have h := startDrag_spec p st pos r false hm
        simp only [hthr, Bool.not_true, Bool.false_eq_true, if_false]
        exact ⟨by rw [h.1]; cases r <;> simp [cbRun, cbStep, h.2.1],
               by rw [h.2.1, h.2.2.1], h.2.2.2.1, h.2.2.2.2⟩
      · simp [hthr, cbRun, hm, hd]
  · simp [hp, cbRun, hm, hd]

/-- Helper: with an accepted stop callback and a mounted component, the stop
body drives the order automaton from the current drag flag to the resulting
one (one accepted stop while dragging, nothing otherwise), never attaches
listeners, and preserves mountedness. -/
theorem handleDragStopBody_order (p : CoreProps) (st : CoreState)
    (posO : Option Pt) (hm : st.mounted = true) :
    cbRun (some st.dragging) (handleDragStopBody p st posO true).2 =
      some (handleDragStopBody p st posO true).1.dragging ∧
    ((handleDragStopBody p st posO true).1.listenersAttached = true →
      st.listenersAttached = true) ∧
    (handleDragStopBody p st posO true).1.mounted = true := by
  unfold handleDragStopBody
  by_cases hd : st.dragging
  · simp only [hd, if_true]
    cases posO with
    | none => simp [cbRun, hm, hd]
    | some pos =>
      cases hh : p.enableUserSelectHack <;>
        simp [hm, hh, hd, cbRun, cbStep, stopCleanup]
  · simp only [hd, if_false]
    have hd2 : st.dragging = false := by simpa using hd
    simp [cbRun, stopCleanup, hd2, hm]

/-- Helper: handleDragStopStep drives the order automaton correctly under an
accepted stop callback and a mounted component. -/
theorem handleDragStopStep_order (p : CoreProps) (st : CoreState)
    (pid : Option ℤ) (posO : Option Pt) (hm : st.mounted = true) :
    cbRun (some st.dragging) (handleDragStopStep p st pid posO true).2 =
      some (handleDragStopStep p st pid posO true).1.dragging ∧
    ((handleDragStopStep p st pid posO true).1.listenersAttached = true →
      st.listenersAttached = true) ∧
    (handleDragStopStep p st pid posO true).1.mounted = true := by
  unfold handleDragStopStep
  by_cases hidle : !st.dragging ∧ !st.pendingDragStart
  · simp [hidle, cbRun, hm]
  · simp only [hidle, if_false]
    have hbody := handleDragStopBody_order p st posO hm
    cases hpi : st.pointerIdentifier with
    | none =>
      cases pid with
      | none => exact hbody
      | some q => exact hbody
    | some b =>
      cases pid with
      | none => exact hbody
      | some q =>
        by_cases hq : q = b
        · simp only [hq, ne_eq, not_true_eq_false, if_false]
          exact hbody
        · simp only [ne_eq, hq, not_false_eq_true, if_true]
          simp [cbRun, hm]

/-- Helper: with an accepted stop callback, a mounted component and the drag
flag set, the commit phase of handleDrag extends a well-ordered callback
prefix into a well-ordered trace whose automaton state matches the
resulting drag flag. -/
theorem handleDragCommit_order (p : CoreProps) (st1 : CoreState) (cbs : List CB)
    (pid : Option ℤ) (pos : Pt) (d : Bool) (s0 : Bool)
    (hrun : cbRun (some s0) cbs = some st1.dragging)
    (hm : st1.mounted = true) (hdr : st1.dragging = true) :
    cbRun (some s0) (handleDragCommit p st1 cbs pid pos d true).2 =
      some (handleDragCommit p st1 cbs pid pos d true).1.dragging ∧
    ((handleDragCommit p st1 cbs pid pos d true).1.listenersAttached = true →
      st1.listenersAttached = true) ∧
    (handleDragCommit p st1 cbs pid pos d true).1.mounted = true := by
  have hstop := handleDragStopStep_order p st1 pid (some pos) hm
  have hmove : ∀ ce : DragData, cbRun (some s0) (cbs ++ [CB.move ce]) = some true := by
    intro ce
    rw [cbRun_append, hrun, hdr]
    rfl
  have hemit : ∀ (xy : Pt) (lst : Option Pt),
      cbRun (some s0)
        ((if d = false ∨ st1.mounted = false then
           ((handleDragStopStep p st1 pid (some pos) true).1,
            cbs ++ [CB.move (createCoreData lst xy.1 xy.2)] ++
              (handleDragStopStep p st1 pid (some pos) true).2)
         else
           ({ st1 with last := some xy, hasDragged := true },
            cbs ++ [CB.move (createCoreData lst xy.1 xy.2)]))).2 =
      some ((if d = false ∨ st1.mounted = false then
           ((handleDragStopStep p st1 pid (some pos) true).1,
            cbs ++ [CB.move (createCoreData lst xy.1 xy.2)] ++
              (handleDragStopStep p st1 pid (some pos) true).2)
         else
           ({ st1 with last := some xy, hasDragged := true },
            cbs ++ [CB.move (createCoreData lst xy.1 xy.2)]))).1.dragging ∧
      (((if d = false ∨ st1.mounted = false then
           ((handleDragStopStep p st1 pid (some pos) true).1,
            cbs ++ [CB.move (createCoreData lst xy.1 xy.2)] ++
              (handleDragStopStep p st1 pid (some pos) true).2)
         else
           ({ st1 with last := some xy, hasDragged := true },
            cbs ++ [CB.move (createCoreData lst xy.1 xy.2)]))).1.listenersAttached = true →
        st1.listenersAttached = true) ∧
      ((if d = false ∨ st1.mounted = false then
           ((handleDragStopStep p st1 pid (some pos) true).1,
            cbs ++ [CB.move (createCoreData lst xy.1 xy.2)] ++
              (handleDragStopStep p st1 pid (some pos) true).2)
         else
           ({ st1 with last := some xy, hasDragged := true },
            cbs ++ [CB.move (createCoreData lst xy.1 xy.2)]))).1.mounted = true := by
    intro xy lst
    by_cases hdm : d = false ∨ st1.mounted = false
    · rw [if_pos hdm]
      refine ⟨?_, hstop.2.1, hstop.2.2⟩
      rw [cbRun_append, hmove (createCoreData lst xy.1 xy.2)]
      have h1 := hstop.1
      rw [hdr] at h1
      exact h1
    · rw [if_neg hdm]
      exact ⟨by rw [hmove (createCoreData lst xy.1 xy.2)]; simp [hdr],
             fun h => h, hm⟩
  unfold handleDragCommit
  by_cases hskip : st1.last == some pos
  · simp only [hskip, if_true]
    exact ⟨hrun, fun h => h, hm⟩
  · simp only [hskip, Bool.false_eq_true, if_false]
    cases hg : p.grid with
    | some g =>
      cases hl : st1.last with
      | none =>
        exact ⟨hrun, fun h => h, hm⟩
      | some l =>
        by_cases hs : (snapToGrid g (pos.1 - l.1) (pos.2 - l.2)).1 = 0 ∧
            (snapToGrid g (pos.1 - l.1) (pos.2 - l.2)).2 = 0
        · simp only [hs.1, hs.2, and_self, if_true]
          exact ⟨hrun, fun h => h, hm⟩
        · simp only [if_neg hs]
          exact hemit _ (some l)
    | none =>
      exact hemit pos st1.last

/-- Helper: with an accepted stop callback and a mounted component, one
handleDrag body invocation drives the order automaton from the current drag
flag to the resulting one, never attaches listeners, and preserves
mountedness. -/
theorem handleDragBody_order (p : CoreProps) (st : CoreState) (pid : Option ℤ)
    (posO : Option Pt) (a d : Bool) (hm : st.mounted = true) :
    cbRun (some st.dragging) (handleDragBody p st pid posO a d true).2 =
      some (handleDragBody p st pid posO a d true).1.dragging ∧
    ((handleDragBody p st pid posO a d true).1.listenersAttached = true →
      st.listenersAttached = true) ∧
    (handleDragBody p st pid posO a d true).1.mounted = true := by
  obtain ⟨dg, lst, ti, pi, mt, la, us, pc, pds, pdsm, dst, ppos, dpass, dta, hdgd⟩ := st
  cases hm
  cases posO with
  | none => exact ⟨rfl, fun h => h, rfl⟩
  | some pos =>
    unfold handleDragBody
    cases dg with
    | true =>
      exact handleDragCommit_order p
        ⟨true, lst, ti, pi, true, la, us, pc, pds, pdsm, dst, ppos, dpass, dta, hdgd⟩
        [] pid pos d true rfl rfl rfl
    | false =>
      by_cases hmode : (pdsm == some PMode.delay) = true
      · simp only [hmode, Bool.not_false, if_true]
        cases dpass with
        | true =>
          have hspec := tryStartDrag_spec p
            ⟨false, lst, ti, pi, true, la, us, pc, pds, pdsm, dst, some pos, true, dta, hdgd⟩
            pos a rfl rfl
          by_cases hstarted : (tryStartDrag p
              ⟨false, lst, ti, pi, true, la, us, pc, pds, pdsm, dst, some pos, true, dta, hdgd⟩
              pos a).2.2 = true
          · simp only [Bool.not_true, Bool.false_eq_true, if_false, hstarted]
            have hcommit := handleDragCommit_order p
              (tryStartDrag p ⟨false, lst, ti, pi, true, la, us, pc, pds, pdsm, dst, some pos, true, dta, hdgd⟩ pos a).1
              (tryStartDrag p ⟨false, lst, ti, pi, true, la, us, pc, pds, pdsm, dst, some pos, true, dta, hdgd⟩ pos a).2.1
              pid pos d false
              (by rw [hspec.1, hspec.2.1]) hspec.2.2.1
              (by rw [hspec.2.1]; exact hstarted)
            exact ⟨hcommit.1, fun h => hspec.2.2.2 (hcommit.2.1 h), hcommit.2.2⟩
          · have hstarted2 : (tryStartDrag p
                ⟨false, lst, ti, pi, true, la, us, pc, pds, pdsm, dst, some pos, true, dta, hdgd⟩
                pos a).2.2 = false := by simpa using hstarted
            simp only [Bool.not_true, Bool.false_eq_true, if_false, hstarted2,
              Bool.not_false, if_true]
            exact ⟨by rw [hspec.1, hspec.2.1], hspec.2.2.2, hspec.2.2.1⟩
        | false =>
          simp only [Bool.not_false, if_true]
          by_cases htol : exceedsDragStartDelayTolerance p
              ⟨false, lst, ti, pi, true, la, us, pc, pds, pdsm, dst, some pos, false, dta, hdgd⟩
              pos.1 pos.2 = true
          · simp only [htol, if_true, Bool.not_false, if_true]
            exact ⟨rfl, by simp [cancelPendingDragStart], by simp [cancelPendingDragStart]⟩
          · have htol2 : exceedsDragStartDelayTolerance p
                ⟨false, lst, ti, pi, true, la, us, pc, pds, pdsm, dst, some pos, false, dta, hdgd⟩
                pos.1 pos.2 = false := by simpa using htol
            simp only [htol2, Bool.false_eq_true, if_false, Bool.not_false, if_true]
            simp [cbRun]
      · have hmode2 : (pdsm == some PMode.delay) = false := by simpa using hmode
        simp only [hmode2, Bool.false_eq_true, if_false, Bool.not_false, if_true]
        have hspec := tryStartDrag_spec p
          ⟨false, lst, ti, pi, true, la, us, pc, pds, pdsm, dst, ppos, dpass, dta, hdgd⟩
          pos a rfl rfl
        by_cases hstarted : (tryStartDrag p
            ⟨false, lst, ti, pi, true, la, us, pc, pds, pdsm, dst, ppos, dpass, dta, hdgd⟩
            pos a).2.2 = true
        · simp only [hstarted, Bool.not_true, Bool.false_eq_true, if_false]
          have hcommit := handleDragCommit_order p
            (tryStartDrag p ⟨false, lst, ti, pi, true, la, us, pc, pds, pdsm, dst, ppos, dpass, dta, hdgd⟩ pos a).1
            (tryStartDrag p ⟨false, lst, ti, pi, true, la, us, pc, pds, pdsm, dst, ppos, dpass, dta, hdgd⟩ pos a).2.1
            pid pos d false
            (by rw [hspec.1, hspec.2.1]) hspec.2.2.1
            (by rw [hspec.2.1]; exact hstarted)
          exact ⟨hcommit.1, fun h => hspec.2.2.2 (hcommit.2.1 h), hcommit.2.2⟩
        · have hstarted2 : (tryStartDrag p
              ⟨false, lst, ti, pi, true, la, us, pc, pds, pdsm, dst, ppos, dpass, dta, hdgd⟩
              pos a).2.2 = false := by simpa using hstarted
          simp only [hstarted2, Bool.not_false, if_true]
          exact ⟨by rw [hspec.1, hspec.2.1], hspec.2.2.2, hspec.2.2.1⟩

/-- Helper: handleDrag (with its pointer-identifier filter) drives the order
automaton correctly under an accepted stop callback and a mounted
component. -/
theorem handleDragStep_order (p : CoreProps) (st : CoreState) (pid : Option ℤ)
    (posO : Option Pt) (a d : Bool) (hm : st.mounted = true) :
    cbRun (some st.dragging) (handleDragStep p st pid posO a d true).2 =
      some (handleDragStep p st pid posO a d true).1.dragging ∧
    ((handleDragStep p st pid posO a d true).1.listenersAttached = true →
      st.listenersAttached = true) ∧
    (handleDragStep p st pid posO a d true).1.mounted = true := by
  unfold handleDragStep
  cases hpi : st.pointerIdentifier with
  | none =>
    cases pid with
    | none => exact handleDragBody_order p st none posO a d hm
    | some q => exact handleDragBody_order p st (some q) posO a d hm
  | some b =>
    cases pid with
    | none => exact ⟨rfl, fun h => h, hm⟩
    | some q =>
      by_cases hq : q = b
      · simp only [hq, ne_eq, not_true_eq_false, if_false]
        exact handleDragBody_order p st (some b) posO a d hm
      · simp only [ne_eq, hq, not_false_eq_true, if_true]
        exact ⟨rfl, fun h => h, hm⟩

/-- Helper: handleDragStart from an idle, mounted state drives the order
automaton correctly (at most one start callback, opening the gesture only
when the caller accepted it) and preserves mountedness. -/
theorem handleDragStartStep_order (p : CoreProps) (st : CoreState)
    (isTouch : Bool) (button : ℤ) (filtered : Bool) (pid tid : Option ℤ)
    (posO : Option Pt) (r : Bool) (hm : st.mounted = true)
    (hd : st.dragging = false) :
    cbRun (some st.dragging)
        (handleDragStartStep p st isTouch button filtered pid tid posO r).2 =
      some (handleDragStartStep p st isTouch button filtered pid tid posO r).1.dragging ∧
    (handleDragStartStep p st isTouch button filtered pid tid posO r).1.mounted = true := by
  obtain ⟨dg, lst, ti, pi, mt, la, us, pc, pds, pdsm, dst, ppos, dpass, dta, hdgd⟩ := st
  cases hm
  cases hd
  unfold handleDragStartStep
  by_cases hbtn : (!p.allowAnyClick && button ≠ 0 && button ≠ -1) = true
  · simp only [hbtn, if_true]
    exact ⟨by simp [cbRun], by trivial⟩
  · have hbtn2 : (!p.allowAnyClick && button ≠ 0 && button ≠ -1) = false := by
      simpa using hbtn
    simp only [hbtn2, Bool.false_eq_true, if_false]
    by_cases hfil : (p.disabled || filtered) = true
    · simp only [hfil, if_true]
      exact ⟨by simp [cbRun], by trivial⟩
    · have hfil2 : (p.disabled || filtered) = false := by simpa using hfil
      simp only [hfil2, Bool.false_eq_true, if_false]
      cases posO with
      | none => exact ⟨by simp [cbRun], by trivial⟩
      | some pos =>
        by_cases hdelay : (isTouch && decide (0 < getDragStartDelay p)) = true
        · simp only [hdelay, Bool.true_or, if_true]
          simp [cbRun]
        · have hdelay2 : (isTouch && decide (0 < getDragStartDelay p)) = false := by
            simpa using hdelay
          simp only [hdelay2, Bool.false_or, Bool.false_eq_true, if_false]
          by_cases hthr : decide (0 < getDragStartThreshold p) = true
          · simp only [hthr, if_true]
            simp [cbRun]
          · have hthr2 : decide (0 < getDragStartThreshold p) = false := by
              simpa using hthr
            simp only [hthr2, Bool.false_eq_true, if_false, Bool.not_false, if_true]
            have hspec := startDrag_spec p
              ⟨false, some pos, (if pid.isNone then tid else none), pid, true, la, us,
               pc, false, none, some pos, some pos, false, false, false⟩
              pos r false rfl
            by_cases hstarted : (startDrag p
                ⟨false, some pos, (if pid.isNone then tid else none), pid, true, la, us,
                 pc, false, none, some pos, some pos, false, false, false⟩
                pos r false).2.2 = true
            · simp only [hstarted, Bool.not_true, Bool.false_eq_true, if_false]
              refine ⟨?_, hspec.2.2.2.1⟩
              rw [hspec.1]
              have hr : r = true := by
                rw [← hspec.2.1]
                exact hstarted
              have hdrag := hspec.2.2.1
              rw [hr] at hdrag
              rw [hr]
              simp [cbRun, cbStep]
              simpa using hdrag
            · have hstarted2 : (startDrag p
                  ⟨false, some pos, (if pid.isNone then tid else none), pid, true, la, us,
                   pc, false, none, some pos, some pos, false, false, false⟩
                  pos r false).2.2 = false := by simpa using hstarted
              simp only [hstarted2, Bool.not_false, if_true]
              refine ⟨?_, hspec.2.2.2.1⟩
              rw [hspec.1]
              have hr : r = false := by
                rw [← hspec.2.1]
                exact hstarted2
              have hdrag := hspec.2.2.1
              rw [hr] at hdrag
              rw [hr]
              simp [cbRun, cbStep]
              simpa using hdrag

/-- Helper: the delay-timer callback drives the order automaton correctly:
it either does nothing observable or fires one start callback whose verdict
matches the resulting drag flag. -/
theorem delayTimerFireStep_order (p : CoreProps) (st : CoreState) (r : Bool)
    (hInv : st.listenersAttached = true → st.mounted = true) :
    cbRun (some st.dragging) (delayTimerFireStep p st r).2 =
      some (delayTimerFireStep p st r).1.dragging ∧
    ((delayTimerFireStep p st r).1.listenersAttached = true →
      (delayTimerFireStep p st r).1.mounted = true) := by
  obtain ⟨dg, lst, ti, pi, mt, la, us, pc, pds, pdsm, dst, ppos, dpass, dta, hdgd⟩ := st
  unfold delayTimerFireStep
  cases dg with
  | true => simp [cbRun]; intro h; exact hInv h
  | false =>
    cases mt with
    | false =>
      simp [cbRun]
      simpa using hInv
    | true =>
      cases pds with
      | false => simp [cbRun]
      | true =>
        by_cases hmode : (pdsm == some PMode.delay) = true
        · simp only [hmode, Bool.not_true, Bool.false_or, Bool.or_false, Bool.not_false,
            Bool.false_eq_true, if_false]
          cases ppos with
          | some q =>
            have hspec := startDrag_spec p
              ⟨false, lst, ti, pi, true, la, us, pc, true, pdsm, dst, some q, true, false, hdgd⟩
              q r true rfl
            refine ⟨?_, fun _ => hspec.2.2.2.1⟩
            rw [hspec.1]
            have hdrag := hspec.2.2.1
            cases r <;> simp [cbRun, cbStep] <;> simpa using hdrag
          | none =>
            have hspec := startDrag_spec p
              ⟨false, lst, ti, pi, true, la, us, pc, true, pdsm, dst, none, true, false, hdgd⟩
              (dst.getD (0, 0)) r true rfl
            refine ⟨?_, fun _ => hspec.2.2.2.1⟩
            rw [hspec.1]
            have hdrag := hspec.2.2.1
            cases r <;> simp [cbRun, cbStep] <;> simpa using hdrag
        · have hmode2 : (pdsm == some PMode.delay) = false := by simpa using hmode
          simp [hmode2, cbRun]

/-- Helper: one machine step from a state whose attached listeners imply
mountedness, on an admissible event, drives the order automaton from the
current drag flag to the resulting one and re-establishes the
listener/mounted invariant. -/
theorem coreStep_order (p : CoreProps) (st : CoreState) (e : Ev)
    (hInv : st.listenersAttached = true → st.mounted = true)
    (hok : okEv st e = true) :
    cbRun (some st.dragging) (coreStep p st e).2 =
      some (coreStep p st e).1.dragging ∧
    ((coreStep p st e).1.listenersAttached = true →
      (coreStep p st e).1.mounted = true) := by
  cases e with
  | down isTouch button filtered pid tid pos r =>
    unfold coreStep
    by_cases hmt : st.mounted = true
    · have hd : st.dragging = false := by simpa [okEv] using hok
      simp only [hmt, Bool.not_true, Bool.false_eq_true, if_false]
      have h := handleDragStartStep_order p st isTouch button filtered pid tid pos r hmt hd
      exact ⟨h.1, fun _ => h.2⟩
    · have hmt2 : st.mounted = false := by simpa using hmt
      simp only [hmt2, Bool.not_false, if_true]
      exact ⟨rfl, fun h => by rw [← hmt2] ; exact hInv h⟩
  | move pid pos a d sret =>
    unfold coreStep
    have hs : sret = true := by simpa [okEv] using hok
    subst hs
    by_cases hl : st.listenersAttached = true
    · have hmt := hInv hl
      simp only [hl, Bool.not_true, Bool.false_eq_true, if_false]
      have h := handleDragStep_order p st pid pos a d hmt
      exact ⟨h.1, fun _ => h.2.2⟩
    · have hl2 : st.listenersAttached = false := by simpa using hl
      simp only [hl2, Bool.not_false, if_true]
      exact ⟨rfl, fun h => absurd h Bool.false_ne_true⟩
  | up pid pos sret =>
    unfold coreStep
    have hs : sret = true := by simpa [okEv] using hok
    subst hs
    by_cases hl : st.listenersAttached = true
    · have hmt := hInv hl
      simp only [hl, Bool.not_true, Bool.false_eq_true, if_false]
      have h := handleDragStopStep_order p st pid pos hmt
      exact ⟨h.1, fun _ => h.2.2⟩
    · have hl2 : st.listenersAttached = false := by simpa using hl
      simp only [hl2, Bool.not_false, if_true]
      exact ⟨rfl, fun h => absurd h Bool.false_ne_true⟩
  | timerFire r =>
    unfold coreStep
    by_cases hta : st.delayTimerArmed = true
    · simp only [hta, Bool.not_true, Bool.false_eq_true, if_false]
      exact delayTimerFireStep_order p st r hInv
    · have hta2 : st.delayTimerArmed = false := by simpa using hta
      simp only [hta2, Bool.not_false, if_true]
      exact ⟨rfl, hInv⟩
  | unmount =>
    unfold coreStep
    by_cases hmt : st.mounted = true
    · simp only [hmt, Bool.not_true, Bool.false_eq_true, if_false]
      constructor
      · simp [unmountStep, cbRun]
      · simp [unmountStep]
    · have hmt2 : st.mounted = false := by simpa using hmt
      simp only [hmt2, Bool.not_false, if_true]
      exact ⟨rfl, fun h => by rw [← hmt2] ; exact hInv h⟩

/-- Helper: over any admissible event sequence from a state whose attached
listeners imply mountedness, the collected callback trace drives the order
automaton from the initial drag flag exactly to the final drag flag. -/
theorem coreRun_order (p : CoreProps) (evs : List Ev) (st : CoreState)
    (hInv : st.listenersAttached = true → st.mounted = true)
    (hok : okSeq p st evs = true) :
    cbRun (some st.dragging) (coreRun p st evs).2 =
      some (coreRun p st evs).1.dragging ∧
    ((coreRun p st evs).1.listenersAttached = true →
      (coreRun p st evs).1.mounted = true) := by
  induction evs generalizing st with
  | nil => exact ⟨rfl, hInv⟩
  | cons e es ih =>
    rw [okSeq, Bool.and_eq_true] at hok
    have hstep := coreStep_order p st e hInv hok.1
    have hrest := ih (coreStep p st e).1 hstep.2 hok.2
    refine ⟨?_, hrest.2⟩
    rw [show (coreRun p st (e :: es)).2 =
        (coreStep p st e).2 ++ (coreRun p (coreStep p st e).1 es).2 from rfl]
    rw [cbRun_append, hstep.1]
    exact hrest.1

/-- C4 counterexample to the claim as stated: press (immediate accepted
start), release with a stop callback returning false, release again with an
accepting stop callback.  The vetoed stop returns before any cleanup, so
the document listeners stay attached and the second release fires the stop
callback again: one completed gesture (final drag flag down) observes the
trace start, stop, stop — two stops, rejected by the order automaton.  A
second pointer-down while dragging likewise re-fires start (see the C7
counterexample), so the order start, move*, stop with exactly one start and
one stop does not hold for every event sequence. -/
theorem c4_callback_order_counterexample :
    (coreRun CoreProps.default CoreState.init
      [Ev.down false 0 false none none (some (0, 0)) true,
       Ev.up none (some (3, 3)) false,
       Ev.up none (some (3, 3)) true]).2 =
      [CB.start true { x := 0, y := 0, deltaX := 0, deltaY := 0, lastX := 0, lastY := 0 },
       CB.stop false { x := 3, y := 3, deltaX := 3, deltaY := 3, lastX := 0, lastY := 0 },
       CB.stop true { x := 3, y := 3, deltaX := 3, deltaY := 3, lastX := 0, lastY := 0 }] ∧
    (coreRun CoreProps.default CoreState.init
      [Ev.down false 0 false none none (some (0, 0)) true,
       Ev.up none (some (3, 3)) false,
       Ev.up none (some (3, 3)) true]).1.dragging = false ∧
    cbRun (some false)
      (coreRun CoreProps.default CoreState.init
        [Ev.down false 0 false none none (some (0, 0)) true,
         Ev.up none (some (3, 3)) false,
         Ev.up none (some (3, 3)) true]).2 = none := by
  refine ⟨?_, ?_, ?_⟩ <;>
    simp [coreRun, coreStep, handleDragStartStep, handleDragStopStep,
      handleDragStopBody, startDrag, stopCleanup, createCoreData, cbRun, cbStep,
      CoreProps.default, CoreState.init, getDragStartDelay, getDragStartThreshold]

/-- C4 amended: monotonic callback order holds for event sequences in which
every pointer-down arrives while no drag is in progress and the caller's
stop callback never returns false (okSeq).  For such sequences the full
callback trace of a run from the mounted idle state is accepted by the
automaton of start, move*, accepted-stop rounds, ending in the open state
exactly when the final state is dragging: every move lies between a start
and its stop, with exactly one start and one accepted stop per completed
gesture.  Without these conditions the order is violated (per the
counterexample: a vetoed stop skips cleanup and a later release fires stop
a second time; a pointer-down while dragging fires a second start). -/
theorem c4_callback_order_amended (p : CoreProps) (evs : List Ev)
    (hok : okSeq p CoreState.init evs = true) :
    cbRun (some false) (coreRun p CoreState.init evs).2 =
      some (coreRun p CoreState.init evs).1.dragging := by
  have h := coreRun_order p evs CoreState.init (fun _ => rfl) hok
  exact h.1

/-- Witness for c4_callback_order_amended: the sequence press, move, release
with all callbacks accepting is admissible, and its trace start, move, stop
is accepted by the order automaton, closing the gesture. -/
theorem c4_callback_order_witness :
    okSeq CoreProps.default CoreState.init
      [Ev.down false 0 false none none (some (0, 0)) true,
       Ev.move none (some (3, 3)) true true true,
       Ev.up none (some (3, 3)) true] = true ∧
    cbRun (some false)
      (coreRun CoreProps.default CoreState.init
        [Ev.down false 0 false none none (some (0, 0)) true,
         Ev.move none (some (3, 3)) true true true,
         Ev.up none (some (3, 3)) true]).2 =
      some (coreRun CoreProps.default CoreState.init
        [Ev.down false 0 false none none (some (0, 0)) true,
         Ev.move none (some (3, 3)) true true true,
         Ev.up none (some (3, 3)) true]).1.dragging :=
  ⟨by simp [okSeq, okEv, coreStep, coreRun, handleDragStartStep, handleDragStep,
      handleDragBody, handleDragCommit, handleDragStopStep, handleDragStopBody,
      startDrag, tryStartDrag, stopCleanup, createCoreData,
      CoreProps.default, CoreState.init, getDragStartDelay, getDragStartThreshold],
   c4_callback_order_amended CoreProps.default
     [Ev.down false 0 false none none (some (0, 0)) true,
      Ev.move none (some (3, 3)) true true true,
      Ev.up none (some (3, 3)) true]
     (by simp [okSeq, okEv, coreStep, coreRun, handleDragStartStep, handleDragStep,
       handleDragBody, handleDragCommit, handleDragStopStep, handleDragStopBody,
       startDrag, tryStartDrag, stopCleanup, createCoreData,
       CoreProps.default, CoreState.init, getDragStartDelay, getDragStartThreshold])⟩
